import Mathlib

/-!
# Workflow Execution & Quality-Gating Subsystem: a Lean embedding

A shallow embedding of the core of the `e2e_agents` repository:

* `src/types/schemas.ts` — the zod data model (`SOPStep`, `SOPWorkflow`,
  `ConfidenceScore`, `CritiqueResult`, `CognitiveQuadrant`, …);
* `ConfidenceCalculator.calculate` — the confidence scorer;
* `CognitiveQuadrantManager` — the escalation decision engine;
* `WorkflowExecutor.executeWorkflow` — the step-execution loop with its
  error-handling policies and the top-level exception handler;
* `SOPParser.validate` — structural workflow validation;
* `SOPFormatter.toMarkdown` / `SOPParser.fromMarkdown` — the dual
  (markdown) representation of workflows.

Numbers that are JS `number`s in the source are modelled as `ℚ` (for scores
and thresholds) or `Int` (for step numbers, counts, timeouts).  JS objects of
type `any` (step `data.value`, `validation.expected`, input `defaultValue`)
are modelled by an explicit `Json` type.  Wall-clock quantities (durations,
timestamps) and freshly generated identifiers (`crypto.randomUUID`) are taken
as oracle parameters where the code consults the environment.
-/

deriving instance DecidableEq for Except

namespace E2E

/-! ## JSON values

`Json` models the JS values flowing through `JSON.stringify`/`JSON.parse` in
`SOPFormatter`/`SOPParser`.  Numeric literals are modelled as integers (the
only numbers the formatter emits for the machine-readable step blocks are
integral).  Mutual inductives are used (instead of `List` nesting) so that
decidable equality can be derived. -/

mutual

inductive Json where
  | null : Json
  | bool (b : Bool) : Json
  | num (n : Int) : Json
  | str (s : String) : Json
  | arr (elems : JsonList) : Json
  | obj (fields : JsonFields) : Json
  deriving DecidableEq, Repr

inductive JsonList where
  | nil : JsonList
  | cons (hd : Json) (tl : JsonList) : JsonList
  deriving DecidableEq, Repr

inductive JsonFields where
  | nil : JsonFields
  | cons (key : String) (val : Json) (tl : JsonFields) : JsonFields
  deriving DecidableEq, Repr

end

/-! ## Core quality data model (`src/types/schemas.ts`) -/

/-- `severity` of an `Issue` (`CritiqueResultSchema.issues[].severity`). -/
inductive Severity where
  | critical | high | medium | low
  deriving DecidableEq, Repr

/-- One issue of a critique (`CritiqueResultSchema.issues[]`). -/
structure Issue where
  severity : Severity
  description : String
  suggestion : Option String := none
  deriving DecidableEq, Repr

/-- A proposed auto correction (`CritiqueResultSchema.autoCorrections[]`). -/
structure AutoCorrection where
  description : String
  applied : Bool
  deriving DecidableEq, Repr

/-- The four dimension scores of `ConfidenceScoreSchema.dimensions`. -/
structure Dimensions where
  completeness : ℚ
  accuracy : ℚ
  feasibility : ℚ
  coverage : ℚ
  deriving DecidableEq, Repr

/-- `ConfidenceScoreSchema`. -/
structure ConfidenceScore where
  overall : ℚ
  dimensions : Dimensions
  reasoning : String
  humanReviewRequired : Bool
  deriving DecidableEq, Repr

/-- `CritiqueResultSchema.phaseId`. -/
inductive PhaseId where
  | scan | interpret | orchestrate | execute | derive
  deriving DecidableEq, Repr

/-- `CritiqueResultSchema`. -/
structure CritiqueResult where
  phaseId : PhaseId
  timestamp : String
  confidence : ConfidenceScore
  issues : List Issue
  autoCorrections : List AutoCorrection
  deriving DecidableEq, Repr

/-! ## Confidence scorer (`ConfidenceCalculator.calculate`)

The source throws `new Error("维度分数必须在 0-1 之间, …score…")` when a
dimension is out of range; the thrown value is modelled as `CalcError`
carrying the offending score. -/

/-- The error thrown by `ConfidenceCalculator.calculate` for a dimension
score outside `[0,1]`; it carries the first offending score (the source
iterates `Object.values(dimensions)` in insertion order: completeness,
accuracy, feasibility, coverage). -/
inductive CalcError where
  | outOfRange (score : ℚ)
  deriving DecidableEq, Repr

/-- Fixed dimension weights of `ConfidenceCalculator.calculate`:
0.3 / 0.3 / 0.25 / 0.15. -/
def weightedOverall (d : Dimensions) : ℚ :=
  d.completeness * (3/10) + d.accuracy * (3/10) +
    d.feasibility * (1/4) + d.coverage * (3/20)

/-- JS `Math.round(q * 1000) / 1000` (round half toward `+∞`), the
3-decimal rounding applied to `overall` in the returned score. -/
def round3 (q : ℚ) : ℚ := (⌊q * 1000 + 1/2⌋ : ℚ) / 1000

/-- Whether a dimension score violates `score < 0 || score > 1`. -/
def outOfRange01 (q : ℚ) : Bool := decide (q < 0) || decide (1 < q)

/-- `ConfidenceCalculator.calculate(dimensions, reasoning, humanReviewThreshold)`.
The default `humanReviewThreshold` in the source is `0.6`; callers of the
model pass it explicitly.  Note that `humanReviewRequired` is computed from
the *unrounded* weighted sum (`overall` before `Math.round(overall*1000)/1000`),
while the returned `overall` field is the rounded value. -/
def calculate (dimensions : Dimensions) (reasoning : String)
    (humanReviewThreshold : ℚ) : Except CalcError ConfidenceScore :=
  if outOfRange01 dimensions.completeness then .error (.outOfRange dimensions.completeness)
  else if outOfRange01 dimensions.accuracy then .error (.outOfRange dimensions.accuracy)
  else if outOfRange01 dimensions.feasibility then .error (.outOfRange dimensions.feasibility)
  else if outOfRange01 dimensions.coverage then .error (.outOfRange dimensions.coverage)
  else
    let overall := weightedOverall dimensions
    let humanReviewRequired : Bool :=
      decide (overall < humanReviewThreshold) ||
        decide (dimensions.accuracy < 1/2) || decide (dimensions.feasibility < 1/2)
    .ok { overall := round3 overall
          dimensions := dimensions
          reasoning := reasoning
          humanReviewRequired := humanReviewRequired }

/-- `ConfidenceCalculator.calculateCompletenessFromIssues`. -/
def calculateCompletenessFromIssues (totalExpected missingCount : ℚ) : ℚ :=
  if totalExpected = 0 then 1 else max 0 (1 - missingCount / totalExpected)

/-- `ConfidenceCalculator.calculateAccuracyFromErrors`. -/
def calculateAccuracyFromErrors (totalItems errorCount : ℚ) : ℚ :=
  if totalItems = 0 then 1 else max 0 (1 - errorCount / totalItems)

/-! ## Cognitive escalation engine (`CognitiveQuadrantManager`) -/

/-- `CognitiveQuadrantSchema.mode`. -/
inductive Mode where
  | autonomous | supervised | collaborative | manual
  deriving DecidableEq, Repr

/-- `CognitiveQuadrantSchema.humanInterventionPoints[]`. -/
inductive InterventionPoint where
  | before_phase | after_phase | on_low_confidence | on_error | on_critical_issue
  deriving DecidableEq, Repr

/-- `CognitiveQuadrantSchema.thresholds`. -/
structure Thresholds where
  autoApprove : ℚ
  requireReview : ℚ
  autoCorrect : ℚ
  deriving DecidableEq, Repr

/-- `CognitiveQuadrantSchema`. -/
structure CognitiveQuadrant where
  mode : Mode
  thresholds : Thresholds
  humanInterventionPoints : List InterventionPoint
  deriving DecidableEq, Repr

/-- The constructor defaults of `CognitiveQuadrantManager` (mode
`supervised`, thresholds `0.8 / 0.6 / 0.5`, intervention points
`["on_low_confidence", "on_critical_issue"]`). -/
def defaultQuadrant : CognitiveQuadrant :=
  { mode := .supervised
    thresholds := { autoApprove := 4/5, requireReview := 3/5, autoCorrect := 1/2 }
    humanInterventionPoints := [.on_low_confidence, .on_critical_issue] }

/-- The verdict returned by `shouldEscalateToHuman`. -/
structure EscalationVerdict where
  shouldEscalate : Bool
  reason : String
  deriving DecidableEq, Repr

/-- Renders `(confidence * 100).toFixed(1)` for a confidence in `[0,1]`
(idealised JS number-to-string formatting: round half up to one decimal). -/
def fmtPct (q : ℚ) : String :=
  let n := ⌊q * 1000 + 1/2⌋
  s!"{n / 10}.{n % 10}"

/-- `CognitiveQuadrantManager.hasCriticalErrors`. -/
def hasCriticalErrors (critique : CritiqueResult) : Bool :=
  critique.issues.any fun issue => issue.severity = .critical

/-- `CognitiveQuadrantManager.checkInterventionPoints`. -/
def checkInterventionPoints (config : CognitiveQuadrant)
    (critique : CritiqueResult) : Bool :=
  config.humanInterventionPoints.any fun point =>
    match point with
    | .on_low_confidence => decide (critique.confidence.overall < config.thresholds.requireReview)
    | .on_critical_issue => hasCriticalErrors critique
    | .on_error => !critique.issues.isEmpty
    | .before_phase => false
    | .after_phase => false

/-- `CognitiveQuadrantManager.shouldEscalateToHuman`. -/
def shouldEscalateToHuman (config : CognitiveQuadrant)
    (critique : CritiqueResult) : EscalationVerdict :=
  let confidence := critique.confidence.overall
  match config.mode with
  | .autonomous =>
    if confidence < config.thresholds.autoCorrect then
      { shouldEscalate := true, reason := s!"置信度过低 ({fmtPct confidence}%)" }
    else if hasCriticalErrors critique then
      { shouldEscalate := true, reason := "检测到关键错误" }
    else { shouldEscalate := false, reason := "自动处理" }
  | .collaborative =>
    if config.thresholds.autoApprove ≤ confidence then
      { shouldEscalate := false, reason := "置信度高，自动批准" }
    else if confidence < config.thresholds.requireReview then
      { shouldEscalate := true, reason := s!"置信度中等 ({fmtPct confidence}%)，需要审核" }
    else if checkInterventionPoints config critique then
      { shouldEscalate := true, reason := "触发人工介入点" }
    else { shouldEscalate := false, reason := "自动处理" }
  | .supervised =>
    if config.thresholds.autoApprove ≤ confidence then
      { shouldEscalate := false, reason := "置信度高，自动批准" }
    else if confidence < config.thresholds.requireReview then
      { shouldEscalate := true, reason := s!"置信度低于阈值 ({fmtPct confidence}%)" }
    else if hasCriticalErrors critique then
      { shouldEscalate := true, reason := "检测到关键问题" }
    else { shouldEscalate := false, reason := "自动处理" }
  | .manual =>
    if 9/10 ≤ confidence ∧ critique.issues = [] then
      { shouldEscalate := false, reason := "置信度极高，自动批准" }
    else { shouldEscalate := true, reason := "人工模式，需要人工审核" }

/-- `CognitiveQuadrantManager.shouldAttemptAutoCorrect`. -/
def shouldAttemptAutoCorrect (config : CognitiveQuadrant)
    (critique : CritiqueResult) : Bool :=
  !critique.autoCorrections.isEmpty && !critique.issues.isEmpty &&
    decide (config.thresholds.autoCorrect ≤ critique.confidence.overall)

/-- The action recommended by `getRecommendedAction`. -/
inductive Action where
  | approve | reject | review | auto_correct
  deriving DecidableEq, Repr

/-- The result of `getRecommendedAction`. -/
structure Recommendation where
  action : Action
  reason : String
  deriving DecidableEq, Repr

/-- `CognitiveQuadrantManager.getRecommendedAction`. -/
def getRecommendedAction (config : CognitiveQuadrant)
    (critique : CritiqueResult) : Recommendation :=
  let escalation := shouldEscalateToHuman config critique
  if escalation.shouldEscalate then
    if critique.confidence.overall < config.thresholds.autoCorrect then
      { action := .reject, reason := escalation.reason }
    else
      { action := .review, reason := escalation.reason }
  else if shouldAttemptAutoCorrect config critique then
    { action := .auto_correct, reason := "检测到可自动修正的问题" }
  else if config.thresholds.autoApprove ≤ critique.confidence.overall then
    { action := .approve, reason := "置信度高，自动批准" }
  else
    { action := .review, reason := "置信度中等，建议审核" }

/-! ## SOP data model (`SOPStepSchema`, `SOPWorkflowSchema`) -/

/-- `SOPStepSchema.action`. -/
inductive ActionKind where
  | navigate | click | input | select | wait | verify | screenshot | extract
  | conditional | loop
  deriving DecidableEq, Repr

/-- `SOPStepSchema.target` (all members optional). -/
structure StepTarget where
  selector : Option String := none
  url : Option String := none
  value : Option String := none
  deriving DecidableEq, Repr

/-- `SOPStepSchema.data.source`. -/
inductive DataSource where
  | user | faker | state | constant
  deriving DecidableEq, Repr

/-- `SOPStepSchema.data`. -/
structure StepData where
  source : DataSource
  field : Option String := none
  fakerMethod : Option String := none
  value : Option Json := none
  deriving DecidableEq, Repr

/-- `SOPStepSchema.validation.type`. -/
inductive ValidationType where
  | exists | visible | text | value | count | custom
  deriving DecidableEq, Repr

/-- `SOPStepSchema.validation` (`expected` is `z.any()`, modelled as
optional `Json`). -/
structure StepValidation where
  type : ValidationType
  expected : Option Json := none
  timeout : Option Int := none
  deriving DecidableEq, Repr

/-- `SOPStepSchema.errorHandling.strategy`. -/
inductive ErrorStrategy where
  | retry | skip | abort | fallback
  deriving DecidableEq, Repr

/-- `SOPStepSchema.errorHandling`. -/
structure ErrorHandling where
  strategy : ErrorStrategy
  maxRetries : Option Int := none
  fallbackStepNumber : Option Int := none
  deriving DecidableEq, Repr

/-- `SOPStepSchema`. -/
structure SOPStep where
  stepNumber : Int
  action : ActionKind
  description : String
  target : Option StepTarget := none
  data : Option StepData := none
  validation : Option StepValidation := none
  errorHandling : Option ErrorHandling := none
  deriving DecidableEq, Repr

/-- One entry of `SOPWorkflowSchema.requiredInputs` (`defaultValue` is
`z.any().optional()`). -/
structure RequiredInput where
  field : String
  type : String
  required : Bool
  defaultValue : Option Json := none
  deriving DecidableEq, Repr

/-- One entry of `SOPWorkflowSchema.successCriteria`. -/
structure SuccessCriterion where
  description : String
  validation : String
  deriving DecidableEq, Repr

/-- `SOPWorkflowSchema.complexity`. -/
inductive Complexity where
  | simple | medium | complex
  deriving DecidableEq, Repr

/-- `SOPWorkflowSchema`. -/
structure SOPWorkflow where
  id : String
  name : String
  description : String
  metadataIds : List String
  timestamp : String
  steps : List SOPStep
  requiredInputs : List RequiredInput
  successCriteria : List SuccessCriterion
  estimatedDuration : Int
  complexity : Complexity
  tags : List String
  critique : CritiqueResult
  deriving DecidableEq, Repr

/-! ## Execution engine (`WorkflowExecutor.executeWorkflow`)

`executeStep` drives a live browser session; in the model the environment is
an *attempt oracle* `attempts : Nat → Nat → AttemptResult` giving, for the
`i`-th step of the workflow's step list and the `k`-th execution of that
step (`k = 0` for the initial attempt, `k = 1, 2, …` for retries), the value
that the source's `executeStep` promise resolves to.  `executeStep` catches
every exception it raises internally and resolves to
`{success, output?, error?, screenshot?}`, so the oracle is total.

Step durations (`Date.now()` differences) are wall-clock quantities outside
the model and are omitted from the recorded outcomes. -/

/-- The resolution value of `WorkflowExecutor.executeStep`. -/
structure AttemptResult where
  success : Bool
  output : Option Json := none
  error : Option String := none
  screenshot : Option String := none
  deriving DecidableEq, Repr

/-- `StepOutcome.status`: the source strings `"success" | "failure" | "skipped"`
(see `render`). -/
inductive StepStatus where
  | success | failure | skipped
  deriving DecidableEq, Repr

/-- The source string for a `StepStatus`. -/
def StepStatus.render : StepStatus → String
  | .success => "success"
  | .failure => "failure"
  | .skipped => "skipped"

/-- One element of `ExecutionResult.stepResults` as recorded by the loop. -/
structure StepRecord where
  stepNumber : Int
  status : StepStatus
  output : Option Json := none
  error : Option String := none
  screenshot : Option String := none
  deriving DecidableEq, Repr

/-- The retry loop of the `"retry"` strategy
(`while (retryCount < maxRetries && !retrySuccess)`): re-execute the step,
returning the first successful attempt's result, or `none` when the next
`count` attempts (numbered `k, k+1, …`) all fail. -/
def retryLoop (attempt : Nat → AttemptResult) : Nat → Nat → Option AttemptResult
  | _, 0 => none
  | k, count + 1 =>
    let r := attempt k
    if r.success then some r else retryLoop attempt (k + 1) count

/-- First successful retry among attempts `1 .. maxRetries` of one step
(the initial failed attempt is attempt `0`). -/
def firstRetrySuccess (attempt : Nat → AttemptResult) (maxRetries : Nat) :
    Option AttemptResult :=
  retryLoop attempt 1 maxRetries

/-- The shifted oracle seen by the rest of the step list once the first step
is done. -/
def shiftAttempts (attempts : Nat → Nat → AttemptResult) :
    Nat → Nat → AttemptResult :=
  fun i k => attempts (i + 1) k

/-- The effective retry bound: `errorHandling.maxRetries ?? 3`, clamped to
`ℕ` (the `while` loop runs `max 0 maxRetries` times). -/
def effectiveMaxRetries (eh : ErrorHandling) : Nat :=
  (eh.maxRetries.getD 3).toNat

/-- The outcome recorded for a step right after its initial attempt
(lines 61–68 of `WorkflowExecutor.ts`). -/
def initialRecord (s : SOPStep) (a : AttemptResult) : StepRecord :=
  { stepNumber := s.stepNumber
    status := if a.success then .success else .failure
    output := a.output
    error := a.error
    screenshot := a.screenshot }

/-- The per-step loop of `WorkflowExecutor.executeWorkflow` (lines 54–117):
execute each step; on failure apply the step's error-handling policy
(`abort` stops, `retry` re-attempts up to the bound and converts the
recorded outcome's `status`/`output` on success (stopping like `abort` when
all retries fail), `skip` records `skipped` and continues; a failed step
with the `fallback` strategy, or with no policy at all, matches no branch
of the `if/else if` chain, so its `failure` record stays and execution
continues with the next step). -/
def runSteps (attempts : Nat → Nat → AttemptResult) :
    List SOPStep → List StepRecord
  | [] => []
  | s :: rest =>
    let a := attempts 0 0
    let rec0 := initialRecord s a
    if a.success then
      rec0 :: runSteps (shiftAttempts attempts) rest
    else
      match s.errorHandling with
      | some eh =>
        match eh.strategy with
        | .abort => [rec0]
        | .retry =>
          match firstRetrySuccess (attempts 0) (effectiveMaxRetries eh) with
          | some r =>
            { rec0 with status := .success, output := r.output }
              :: runSteps (shiftAttempts attempts) rest
          | none => [rec0]
        | .skip =>
          { rec0 with status := .skipped } :: runSteps (shiftAttempts attempts) rest
        | .fallback => rec0 :: runSteps (shiftAttempts attempts) rest
      | none => rec0 :: runSteps (shiftAttempts attempts) rest

/-- `ExecutionResult.status`: the source strings
`"success" | "failure" | "partial" | "skipped"`.  The source's `"partial"`
status is the constructor `mixed` (see `render`). -/
inductive ExecStatus where
  | success | failure | mixed | skipped
  deriving DecidableEq, Repr

/-- The source string for an `ExecStatus`. -/
def ExecStatus.render : ExecStatus → String
  | .success => "success"
  | .failure => "failure"
  | .mixed => "partial"
  | .skipped => "skipped"

/-- `stepResults.every((r) => r.status === "success")`. -/
def allSuccess (rs : List StepRecord) : Bool :=
  rs.all fun r => r.status = .success

/-- `stepResults.some((r) => r.status === "failure")`. -/
def anyFailure (rs : List StepRecord) : Bool :=
  rs.any fun r => r.status = .failure

/-- `allSuccess ? "success" : anyFailure ? "failure" : "partial"`
(line 133 of `WorkflowExecutor.ts`). -/
def deriveStatus (rs : List StepRecord) : ExecStatus :=
  if allSuccess rs then .success else if anyFailure rs then .failure else .mixed

/-- The model of an `ExecutionResult` (identity fields, timestamps and
durations — which the source draws from `crypto.randomUUID` and
`Date.now()` — are omitted; `finalState` is likewise environment data). -/
structure ExecutionResultModel where
  status : ExecStatus
  stepResults : List StepRecord
  screenshots : List String
  logs : List String
  critique : CritiqueResult
  deriving DecidableEq, Repr

/-- The critique attached to a normally completed run
(lines 139–165 of `WorkflowExecutor.ts`).  `now` models
`new Date().toISOString()`.  When the workflow has no steps the source's
`coverage` is `0/0 = NaN`; in `ℚ` the division yields `0`. -/
def normalCritique (now : String) (steps : List SOPStep)
    (rs : List StepRecord) : CritiqueResult :=
  { phaseId := .execute
    timestamp := now
    confidence :=
      { overall := if allSuccess rs then 9/10 else if anyFailure rs then 3/10 else 3/5
        dimensions :=
          { completeness := if rs.length = steps.length then 1 else 1/2
            accuracy := if allSuccess rs then 1 else 1/2
            feasibility := 1
            coverage := (rs.length : ℚ) / (steps.length : ℚ) }
        reasoning :=
          if allSuccess rs then "All steps completed successfully"
          else if anyFailure rs then "Some steps failed" else "Partial completion"
        humanReviewRequired := anyFailure rs }
    issues :=
      (rs.filter fun r => r.error ≠ none).map fun r =>
        let err := r.error.getD ""
        { severity := .high
          description := s!"Step {r.stepNumber} failed: {err}" }
    autoCorrections := [] }

/-- The critique attached by the top-level `catch` block of
`executeWorkflow` (lines 185–206): fixed confidence `0.1` with dimensions
`0 / 0 / 0.5 / 0` and a single critical issue naming the exception. -/
def catchCritique (now msg : String) : CritiqueResult :=
  { phaseId := .execute
    timestamp := now
    confidence :=
      { overall := 1/10
        dimensions := { completeness := 0, accuracy := 0, feasibility := 1/2, coverage := 0 }
        reasoning := "Workflow execution failed with exception"
        humanReviewRequired := true }
    issues := [{ severity := .critical, description := s!"Workflow failed: {msg}" }]
    autoCorrections := [] }

/-- `WorkflowExecutor.executeWorkflow`.  `browserInit` models the two
`await`s that precede the step loop (`playwright.initialize()` and
`playwright.newPage()`): they are the only statements of the `try` block
that can throw (every other exception is caught inside `executeStep`), and
a throw there reaches the top-level `catch` with `stepResults` still empty.
The function is total: the source's public entry point never throws (the
`catch` turns any run-level exception into a synthetic `failure` result). -/
def executeWorkflowModel (now : String) (workflow : SOPWorkflow)
    (browserInit : Except String Unit)
    (attempts : Nat → Nat → AttemptResult) : ExecutionResultModel :=
  match browserInit with
  | .error msg =>
    { status := .failure
      stepResults := []
      screenshots := []
      logs := [msg]
      critique := catchCritique now msg }
  | .ok _ =>
    let rs := runSteps attempts workflow.steps
    { status := deriveStatus rs
      stepResults := rs
      screenshots :=
        (rs.filter fun r => r.screenshot ≠ none).map fun r =>
          s!"step_{r.stepNumber}_screenshot.png"
      logs := []
      critique := normalCritique now workflow.steps rs }

/-! ## Structural validation (`SOPParser.validate`)

The source accumulates rendered message strings directly; the model
accumulates a structured error value per pushed message together with the
`render` function producing exactly the source's strings. -/

/-- One structural error pushed by `SOPParser.validate`.  `gap` carries the
`expected`/`found` pair of the first step-numbering gap; the per-step
errors carry the 1-based index `index + 1` used in the source's message. -/
inductive VError where
  | missingName
  | noSteps
  | gap (expected found : Int)
  | stepMissingAction (oneBasedIndex : Nat)
  | stepMissingDescription (oneBasedIndex : Nat)
  deriving DecidableEq, Repr

/-- The exact message string `SOPParser.validate` pushes for each error. -/
def VError.render : VError → String
  | .missingName => "Missing workflow name"
  | .noSteps => "No steps defined"
  | .gap expected found => s!"Step numbering gap: expected {expected}, found {found}"
  | .stepMissingAction i => s!"Step {i} missing action"
  | .stepMissingDescription i => s!"Step {i} missing description"

/-- Whether an error is the step-numbering-gap error. -/
def VError.isGap : VError → Bool
  | .gap _ _ => true
  | _ => false

/-- The scan `for (let i = 0; …) { if (stepNumbers[i] !== i + 1) { push; break } }`
over the ascending-sorted step numbers: the first position where the sorted
list deviates from `expected, expected+1, …`, as an `(expected, found)`
pair. -/
def firstGap : List Int → Int → Option (Int × Int)
  | [], _ => none
  | n :: rest, expected =>
    if n = expected then firstGap rest (expected + 1) else some (expected, n)

/-- `workflow.steps.map((s) => s.stepNumber).sort((a, b) => a - b)`. -/
def sortedStepNumbers (steps : List SOPStep) : List Int :=
  List.insertionSort (· ≤ ·) (steps.map (·.stepNumber))

/-- The per-step required-field checks of `validate`.  In the typed model a
step's `action` is a closed enum and can never be falsy, so the source's
`!step.action` branch is unreachable; the `!step.description` branch fires
exactly when the description is the empty string. -/
def stepFieldErrors (steps : List SOPStep) : List VError :=
  steps.enum.filterMap fun p =>
    if p.2.description = "" then some (.stepMissingDescription (p.1 + 1)) else none

/-- The result of `SOPParser.validate`. -/
structure ValidationOutcome where
  isValid : Bool
  errors : List VError
  deriving DecidableEq, Repr

/-- `SOPParser.validate(workflow)`: missing name, empty step list, first
step-numbering gap (at most one, the loop breaks), per-step field checks. -/
def validate (w : SOPWorkflow) : ValidationOutcome :=
  let nameErrs : List VError := if w.name = "" then [.missingName] else []
  let stepsErrs : List VError := if w.steps.isEmpty then [.noSteps] else []
  let gapErrs : List VError :=
    match firstGap (sortedStepNumbers w.steps) 1 with
    | some (expected, found) => [.gap expected found]
    | none => []
  let errors := nameErrs ++ stepsErrs ++ gapErrs ++ stepFieldErrors w.steps
  { isValid := errors.isEmpty, errors := errors }

/-- The contiguous numbering `expected, expected + 1, …` of length `len`
that `firstGap` scans for. -/
def expectedFrom (expected : Int) : Nat → List Int
  | 0 => []
  | len + 1 => expected :: expectedFrom (expected + 1) len

/-! ## JSON serialisation (`JSON.stringify(value, null, 2)` and `JSON.parse`)

Only what flows through `SOPFormatter`/`SOPParser` is needed: objects,
strings, integral numbers, booleans, null.  Numeric literals are modelled
as integers — every number the formatter emits into a machine-readable
block (`stepNumber`, `maxRetries`, `fallbackStepNumber`, `timeout`) is
integral. -/

/-- Last-wins field lookup (a JS object keeps the ultimate assignment for a
duplicated key, and `JSON.parse` assigns in textual order). -/
def JsonFields.lookupLast (k : String) : JsonFields → Option Json
  | .nil => none
  | .cons key v tl =>
    match JsonFields.lookupLast k tl with
    | some r => some r
    | none => if key = k then some v else none

/-- Append for `JsonFields`. -/
def JsonFields.append (a b : JsonFields) : JsonFields :=
  match a with
  | .nil => b
  | .cons k v tl => .cons k v (JsonFields.append tl b)

/-- Build `JsonFields` from a list of key/value pairs (used to assemble the
object literals the formatter passes to `JSON.stringify`). -/
def JsonFields.ofList : List (String × Json) → JsonFields
  | [] => .nil
  | (k, v) :: rest => .cons k v (JsonFields.ofList rest)

/-- JSON string escaping as performed by `JSON.stringify` (the characters
appearing in the repository's documents only need the basic escapes). -/
def escapeJsonChar (c : Char) : String :=
  if c = '"' then "\\\""
  else if c = '\\' then "\\\\"
  else if c = '\n' then "\\n"
  else if c = '\t' then "\\t"
  else if c = '\r' then "\\r"
  else String.singleton c

/-- A JSON string literal with quotes and escapes. -/
def quoteJson (s : String) : String :=
  "\"" ++ String.join (s.data.map escapeJsonChar) ++ "\""

/-- `n` spaces. -/
def indentStr (n : Nat) : String := String.mk (List.replicate n ' ')

mutual

/-- `JSON.stringify(v, null, 2)` at nesting depth `depth`: array items and
object entries are rendered one per line at the next indent level and
joined with `",\n"`. -/
def Json.stringifyIndent (depth : Nat) : Json → String
  | .null => "null"
  | .bool true => "true"
  | .bool false => "false"
  | .num n => toString n
  | .str s => quoteJson s
  | .arr l =>
    let items := JsonList.renderIndent (depth + 1) l
    if items.isEmpty then "[]"
    else "[\n" ++ String.intercalate ",\n" items ++ "\n" ++ indentStr (depth * 2) ++ "]"
  | .obj f =>
    let items := JsonFields.renderIndent (depth + 1) f
    if items.isEmpty then "\x7b\x7d"
    else "\x7b\n" ++ String.intercalate ",\n" items ++ "\n" ++ indentStr (depth * 2) ++ "\x7d"

/-- The indented renderings of array items. -/
def JsonList.renderIndent (depth : Nat) : JsonList → List String
  | .nil => []
  | .cons h t =>
    (indentStr (depth * 2) ++ Json.stringifyIndent depth h) :: JsonList.renderIndent depth t

/-- The indented renderings of object entries. -/
def JsonFields.renderIndent (depth : Nat) : JsonFields → List String
  | .nil => []
  | .cons k v t =>
    (indentStr (depth * 2) ++ quoteJson k ++ ": " ++ Json.stringifyIndent depth v)
      :: JsonFields.renderIndent depth t

end

mutual

/-- `JSON.stringify(v)` without an indent argument (compact form, used by
`formatTarget`/`formatData`/`formatValidation` for the cosmetic lines). -/
def Json.stringifyCompact : Json → String
  | .null => "null"
  | .bool true => "true"
  | .bool false => "false"
  | .num n => toString n
  | .str s => quoteJson s
  | .arr l => "[" ++ String.intercalate "," (JsonList.renderCompact l) ++ "]"
  | .obj f => "\x7b" ++ String.intercalate "," (JsonFields.renderCompact f) ++ "\x7d"

/-- Compact renderings of array items. -/
def JsonList.renderCompact : JsonList → List String
  | .nil => []
  | .cons h t => Json.stringifyCompact h :: JsonList.renderCompact t

/-- Compact renderings of object entries. -/
def JsonFields.renderCompact : JsonFields → List String
  | .nil => []
  | .cons k v t =>
    (quoteJson k ++ ":" ++ Json.stringifyCompact v) :: JsonFields.renderCompact t

end

/-- JS template-literal rendering `${value}` of an `any`-typed value
(`String(value)`): strings are spliced raw, objects render as
`[object Object]`, arrays join their elements with commas. -/
def jsTemplate : Json → String
  | .null => "null"
  | .bool true => "true"
  | .bool false => "false"
  | .num n => toString n
  | .str s => s
  | .arr _ => "[object Object]"
  | .obj _ => "[object Object]"

/-- Whitespace as matched by `\s` / skipped by JSON (restricted to the
ASCII whitespace occurring in the documents). -/
def isWs (c : Char) : Bool := c = ' ' || c = '\t' || c = '\n' || c = '\r'

/-- Drop leading JSON whitespace. -/
def skipWs (l : List Char) : List Char := l.dropWhile isWs

/-- Parse the body of a JSON string literal (after the opening quote),
returning the string and the remainder after the closing quote.  Handles
the basic escapes produced by `escapeJsonChar`. -/
def parseJsonString : Nat → List Char → Option (String × List Char)
  | 0, _ => none
  | _, [] => none
  | fuel + 1, c :: rest =>
    if c = '"' then some ("", rest)
    else if c = '\\' then
      match rest with
      | [] => none
      | e :: rest2 =>
        let dec : Option Char :=
          if e = '"' then some '"'
          else if e = '\\' then some '\\'
          else if e = 'n' then some '\n'
          else if e = 't' then some '\t'
          else if e = 'r' then some '\r'
          else if e = '/' then some '/'
          else none
        match dec with
        | none => none
        | some d =>
          match parseJsonString fuel rest2 with
          | some (s, r) => some (String.singleton d ++ s, r)
          | none => none
    else
      match parseJsonString fuel rest with
      | some (s, r) => some (String.singleton c ++ s, r)
      | none => none

/-- Digits to a natural number. -/
def digitsToNat (ds : List Char) : Nat :=
  ds.foldl (fun acc c => acc * 10 + (c.toNat - '0'.toNat)) 0

mutual

/-- A JSON value (integral numbers only; the machine-readable blocks the
formatter emits contain no fractional literals). -/
def parseJsonVal : Nat → List Char → Option (Json × List Char)
  | 0, _ => none
  | fuel + 1, l =>
    match skipWs l with
    | [] => none
    | c :: rest =>
      if c = 'n' then
        if ("ull".data).isPrefixOf rest then some (.null, rest.drop 3) else none
      else if c = 't' then
        if ("rue".data).isPrefixOf rest then some (.bool true, rest.drop 3) else none
      else if c = 'f' then
        if ("alse".data).isPrefixOf rest then some (.bool false, rest.drop 4) else none
      else if c = '"' then
        match parseJsonString fuel rest with
        | some (s, r) => some (.str s, r)
        | none => none
      else if c = '-' then
        let ds := rest.takeWhile Char.isDigit
        if ds = [] then none
        else some (.num (-(digitsToNat ds : Int)), rest.drop ds.length)
      else if c.isDigit then
        let ds := (c :: rest).takeWhile Char.isDigit
        some (.num (digitsToNat ds : Int), (c :: rest).drop ds.length)
      else if c = '[' then
        parseJsonArr fuel rest
      else if c = '{' then
        parseJsonObj fuel rest
      else none

/-- The items of a JSON array after `[`. -/
def parseJsonArr : Nat → List Char → Option (Json × List Char)
  | 0, _ => none
  | fuel + 1, l =>
    match skipWs l with
    | ']' :: rest => some (.arr .nil, rest)
    | l1 =>
      match parseJsonVal fuel l1 with
      | none => none
      | some (v, r) =>
        match parseJsonArrTail fuel r with
        | some (.arr t, r2) => some (.arr (.cons v t), r2)
        | _ => none

/-- After one array item: `,` and more items, or `]`. -/
def parseJsonArrTail : Nat → List Char → Option (Json × List Char)
  | 0, _ => none
  | fuel + 1, l =>
    match skipWs l with
    | ']' :: rest => some (.arr .nil, rest)
    | ',' :: rest =>
      match parseJsonVal fuel rest with
      | none => none
      | some (v, r) =>
        match parseJsonArrTail fuel r with
        | some (.arr t, r2) => some (.arr (.cons v t), r2)
        | _ => none
    | _ => none

/-- The entries of a JSON object after `{`. -/
def parseJsonObj : Nat → List Char → Option (Json × List Char)
  | 0, _ => none
  | fuel + 1, l =>
    match skipWs l with
    | '}' :: rest => some (.obj .nil, rest)
    | '"' :: rest =>
      match parseJsonString fuel rest with
      | none => none
      | some (k, r) =>
        match skipWs r with
        | ':' :: r2 =>
          match parseJsonVal fuel r2 with
          | none => none
          | some (v, r3) =>
            match parseJsonObjTail fuel r3 with
            | some (.obj t, r4) => some (.obj (.cons k v t), r4)
            | _ => none
        | _ => none
    | _ => none

/-- After one object entry: `,` and more entries, or `}`. -/
def parseJsonObjTail : Nat → List Char → Option (Json × List Char)
  | 0, _ => none
  | fuel + 1, l =>
    match skipWs l with
    | '}' :: rest => some (.obj .nil, rest)
    | ',' :: rest =>
      match skipWs rest with
      | '"' :: r =>
        match parseJsonString fuel r with
        | none => none
        | some (k, r1) =>
          match skipWs r1 with
          | ':' :: r2 =>
            match parseJsonVal fuel r2 with
            | none => none
            | some (v, r3) =>
              match parseJsonObjTail fuel r3 with
              | some (.obj t, r4) => some (.obj (.cons k v t), r4)
              | _ => none
          | _ => none
      | _ => none
    | _ => none

end

/-- `JSON.parse(s)`: a single value, whole input consumed up to trailing
whitespace. -/
def parseJson (s : String) : Option Json :=
  match parseJsonVal (s.length + 1) s.data with
  | some (v, rest) => if skipWs rest = [] then some v else none
  | none => none

/-! ## Formatter (`SOPFormatter.toMarkdown`) -/

/-- The source string of an `ActionKind` (the zod enum literal). -/
def renderAction : ActionKind → String
  | .navigate => "navigate"
  | .click => "click"
  | .input => "input"
  | .select => "select"
  | .wait => "wait"
  | .verify => "verify"
  | .screenshot => "screenshot"
  | .extract => "extract"
  | .conditional => "conditional"
  | .loop => "loop"

/-- The source string of a `DataSource`. -/
def renderDataSource : DataSource → String
  | .user => "user"
  | .faker => "faker"
  | .state => "state"
  | .constant => "constant"

/-- The source string of a `ValidationType`. -/
def renderValidationType : ValidationType → String
  | .exists => "exists"
  | .visible => "visible"
  | .text => "text"
  | .value => "value"
  | .count => "count"
  | .custom => "custom"

/-- The source string of an `ErrorStrategy`. -/
def renderStrategy : ErrorStrategy → String
  | .retry => "retry"
  | .skip => "skip"
  | .abort => "abort"
  | .fallback => "fallback"

/-- The source string of a `Complexity`. -/
def renderComplexity : Complexity → String
  | .simple => "simple"
  | .medium => "medium"
  | .complex => "complex"

/-- An optional object entry: present members in declaration order,
`undefined` members dropped (as `JSON.stringify` drops them). -/
def optField (k : String) (v : Option Json) : List (String × Json) :=
  match v with
  | some j => [(k, j)]
  | none => []

/-- The JS object value of `step.target` (members `selector`, `url`,
`value`, absent when `undefined`). -/
def targetToJson (t : StepTarget) : Json :=
  .obj (JsonFields.ofList
    (optField "selector" (t.selector.map .str) ++
     optField "url" (t.url.map .str) ++
     optField "value" (t.value.map .str)))

/-- The JS object value of `step.data`. -/
def dataToJson (d : StepData) : Json :=
  .obj (JsonFields.ofList
    ([("source", Json.str (renderDataSource d.source))] ++
     optField "field" (d.field.map .str) ++
     optField "fakerMethod" (d.fakerMethod.map .str) ++
     optField "value" d.value))

/-- The JS object value of `step.validation`. -/
def validationToJson (v : StepValidation) : Json :=
  .obj (JsonFields.ofList
    ([("type", Json.str (renderValidationType v.type))] ++
     optField "expected" v.expected ++
     optField "timeout" (v.timeout.map .num)))

/-- The JS object value of `step.errorHandling`. -/
def errorHandlingToJson (eh : ErrorHandling) : Json :=
  .obj (JsonFields.ofList
    ([("strategy", Json.str (renderStrategy eh.strategy))] ++
     optField "maxRetries" (eh.maxRetries.map .num) ++
     optField "fallbackStepNumber" (eh.fallbackStepNumber.map .num)))

/-- The object literal the formatter passes to `JSON.stringify` for a
step's machine-readable block (lines 77–89 of `SOPFormatter.ts`): keys
`stepNumber`, `action`, `target`, `data`, `validation`, `errorHandling` —
and *not* `description`. -/
def stepToJson (s : SOPStep) : Json :=
  .obj (JsonFields.ofList
    ([("stepNumber", Json.num s.stepNumber),
      ("action", Json.str (renderAction s.action))] ++
     optField "target" (s.target.map targetToJson) ++
     optField "data" (s.data.map dataToJson) ++
     optField "validation" (s.validation.map validationToJson) ++
     optField "errorHandling" (s.errorHandling.map errorHandlingToJson)))

/-- `SOPFormatter.formatTarget`: backticked selector, else backticked url,
else (the model's `StepTarget` has no `text`/`condition` members)
`JSON.stringify(target)`. -/
def formatTarget (t : Option StepTarget) : String :=
  match t with
  | none => "-"
  | some tgt =>
    match tgt.selector with
    | some s => "`" ++ s ++ "`"
    | none =>
      match tgt.url with
      | some u => "`" ++ u ++ "`"
      | none => (targetToJson tgt).stringifyCompact

/-- `SOPFormatter.formatData` (the `typeof data === "string"` branch is
unreachable for schema-conforming steps): backticked compact JSON. -/
def formatData (d : Option StepData) : String :=
  match d with
  | none => "-"
  | some dat => "`" ++ (dataToJson dat).stringifyCompact ++ "`"

/-- `SOPFormatter.formatValidation`: `Type: …, Expected: …` plus
`Timeout: …ms` when `validation.timeout` is truthy (`0` is falsy). -/
def formatValidation (v : Option StepValidation) : String :=
  match v with
  | none => "-"
  | some vd =>
    let expected :=
      match vd.expected with
      | some j => j.stringifyCompact
      | none => "undefined"
    let base := s!"Type: {renderValidationType vd.type}, Expected: {expected}"
    match vd.timeout with
    | some t => if t ≠ 0 then base ++ s!", Timeout: {t}ms" else base
    | none => base

/-- The lines the formatter pushes for one step (lines 46–93 of
`SOPFormatter.ts`); the `JSON.stringify(…, null, 2)` output is pushed as a
single multi-line string, exactly as in the source. -/
def stepLines (step : SOPStep) : List String :=
  [s!"### Step {step.stepNumber}: {step.description}", "",
   "**Action**: `" ++ renderAction step.action ++ "`"] ++
  (match step.target with
   | some _ => [s!"**Target**: {formatTarget step.target}"]
   | none => []) ++
  (match step.data with
   | some _ => [s!"**Data**: {formatData step.data}"]
   | none => []) ++
  (match step.validation with
   | some _ => [s!"**Validation**: {formatValidation step.validation}"]
   | none => []) ++
  (match step.errorHandling with
   | some eh =>
     let maxRetriesStr :=
       match eh.maxRetries with
       | some n => toString n
       | none => "undefined"
     ["**Error Handling**:",
      s!"- Strategy: {renderStrategy eh.strategy}",
      s!"- Max Retries: {maxRetriesStr}"] ++
     (match eh.fallbackStepNumber with
      | some f => [s!"- Fallback Step: {f}"]
      | none => [])
   | none => []) ++
  ["", "```json", Json.stringifyIndent 0 (stepToJson step), "```", ""]

/-- The `## Required Inputs` table block (lines 26–40), emitted only when
the workflow declares inputs. -/
def requiredInputLines (inputs : List RequiredInput) : List String :=
  if inputs.isEmpty then []
  else
    ["## Required Inputs", "",
     "| Field | Type | Required | Default |",
     "|-------|------|----------|---------|"] ++
    (inputs.map fun input =>
      let required := if input.required then "Yes" else "No"
      let defaultVal :=
        match input.defaultValue with
        | some v => jsTemplate v
        | none => "-"
      s!"| {input.field} | {input.type} | {required} | {defaultVal} |") ++
    [""]

/-- The `## Success Criteria` block (lines 96–104), emitted only when
criteria exist; each criterion is a numbered line followed by an indented
`Validation:` line. -/
def successCriteriaLines (criteria : List SuccessCriterion) : List String :=
  if criteria.isEmpty then []
  else
    ["## Success Criteria", ""] ++
    ((criteria.enum.map fun p =>
        [s!"{p.1 + 1}. {p.2.description}", s!"   Validation: {p.2.validation}"]).flatten) ++
    [""]

/-- `SOPFormatter.toMarkdown(workflow)`. -/
def toMarkdown (w : SOPWorkflow) : String :=
  let lines :=
    [s!"# SOP: {w.name}", "",
     s!"> **Generated**: {w.timestamp}",
     "> **ID**: `" ++ w.id ++ "`",
     s!"> **Description**: {w.description}",
     s!"> **Complexity**: {renderComplexity w.complexity}", ""] ++
    requiredInputLines w.requiredInputs ++
    ["## Workflow Steps", ""] ++
    (w.steps.map stepLines).flatten ++
    successCriteriaLines w.successCriteria
  String.intercalate "\n" lines

/-! ## Parser (`SOPParser.fromMarkdown`)

The document is processed as the source does: split on `"\n"`, the title
matched on line 0, then a line-by-line loop keeping a current section,
collected metadata, raw step JSON objects, required inputs and success
criteria.  Regex matches are modelled as explicit character scans. -/

/-- `markdown.split("\n")` on character lists. -/
def splitLines : List Char → List (List Char)
  | [] => [[]]
  | c :: rest =>
    if c = '\n' then [] :: splitLines rest
    else
      match splitLines rest with
      | [] => [[c]]
      | l :: ls => (c :: l) :: ls

/-- JS `String.prototype.trim` (both ends). -/
def trimChars (l : List Char) : List Char :=
  ((l.dropWhile isWs).reverse.dropWhile isWs).reverse

/-- Expect a literal prefix and return the remainder. -/
def dropLit (lit : List Char) (l : List Char) : Option (List Char) :=
  if lit.isPrefixOf l then some (l.drop lit.length) else none

/-- `\s+` followed by a non-whitespace atom: at least one whitespace
character, all consumed greedily. -/
def wsPlus : List Char → Option (List Char)
  | c :: rest => if isWs c then some (rest.dropWhile isWs) else none
  | [] => none

/-- `\s+(.+)$`: at least one whitespace character, then a nonempty
remainder; the regex backtracks, so an all-whitespace tail still matches
with its last character as the capture. -/
def wsPlusRest : List Char → Option (List Char)
  | [] => none
  | c :: rest =>
    if isWs c then
      match wsPlusRest rest with
      | some cap => some cap
      | none => if rest = [] then none else some rest
    else none

/-- `/^#\s+SOP:\s+(.+)$/` on the document's first (raw) line. -/
def matchTitle (l : List Char) : Option String := do
  let l1 ← dropLit "#".data l
  let l2 ← wsPlus l1
  let l3 ← dropLit "SOP:".data l2
  let cap ← wsPlusRest l3
  return String.mk cap

/-- `\w` = `[A-Za-z0-9_]` (ASCII word character). -/
def isWordChar (c : Char) : Bool := c.isAlphanum || c = '_'

/-- The metadata pattern `>\s+\*\*(\w+)\*\*:\s+(.+)$` anchored at the
current position; returns key and value captures. -/
def matchMetaAt (l : List Char) : Option (String × String) := do
  let l1 ← dropLit ">".data l
  let l2 ← wsPlus l1
  let l3 ← dropLit "**".data l2
  let w := l3.takeWhile isWordChar
  if w = [] then none
  else do
    let l4 ← dropLit "**:".data (l3.drop w.length)
    let cap ← wsPlusRest l4
    return (String.mk w, String.mk cap)

/-- The unanchored search `line.match(/>\s+\*\*(\w+)\*\*:\s+(.+)$/)`:
try each start position left to right. -/
def searchMeta : List Char → Option (String × String)
  | [] => none
  | c :: rest =>
    match matchMetaAt (c :: rest) with
    | some r => some r
    | none => searchMeta rest

/-- `/^\d+\.\s+(.+)$/`: a numbered success-criterion line; returns the
description capture. -/
def matchCriterion (l : List Char) : Option String :=
  let ds := l.takeWhile Char.isDigit
  if ds = [] then none
  else
    match dropLit ".".data (l.drop ds.length) with
    | none => none
    | some l1 =>
      match wsPlusRest l1 with
      | none => none
      | some cap => some (String.mk cap)

/-- The unanchored search `line.match(/Validation:\s+(.+)$/)`. -/
def searchValidation : List Char → Option String
  | [] => none
  | c :: rest =>
    match
      (do
        let l1 ← dropLit "Validation:".data (c :: rest)
        wsPlusRest l1)
    with
    | some cap => some (String.mk cap)
    | none => searchValidation rest

/-- `line.split("|")` (keeping empty segments, as JS `split` does). -/
def splitOnPipe : List Char → List (List Char)
  | [] => [[]]
  | c :: rest =>
    if c = '|' then [] :: splitOnPipe rest
    else
      match splitOnPipe rest with
      | [] => [[c]]
      | l :: ls => (c :: l) :: ls

/-- Whether `pat` occurs as a contiguous subsequence (JS
`line.includes(pat)`). -/
def containsSeq (pat : List Char) : List Char → Bool
  | [] => decide (pat = [])
  | c :: rest => pat.isPrefixOf (c :: rest) || containsSeq pat rest

/-- One required-inputs table row as the parser builds it (its
`defaultValue` is a string cell or `undefined`). -/
structure RawInput where
  field : String
  type : String
  required : Bool
  defaultValue : Option String
  deriving DecidableEq, Repr

/-- Parse a required-inputs table line (lines 72–84 of `SOPParser.ts`):
split on `|`, trim, drop empty cells; keep rows with at least four cells
whose first cell is not the literal header `Field`. -/
def parseInputRow (t : List Char) : Option RawInput :=
  let parts := ((splitOnPipe t).map trimChars).filter (· ≠ [])
  if parts.length ≥ 4 ∧ String.mk (parts.getD 0 []) ≠ "Field" then
    let cell3 := String.mk (parts.getD 3 [])
    some
      { field := String.mk (parts.getD 0 [])
        type := String.mk (parts.getD 1 [])
        required := String.mk (parts.getD 2 []) = "Yes"
        defaultValue := if cell3 = "-" then none else some cell3 }
  else none

/-- Collect the raw lines of a fenced block until a line trimming to
`` ``` `` (or end of input); each collected line gets a trailing newline
(`jsonContent += lines[i] + "\n"`).  Returns the content and the lines
after the closing fence. -/
def collectJson : List (List Char) → (List Char × List (List Char))
  | [] => ([], [])
  | l :: rest =>
    if trimChars l = "```".data then ([], rest)
    else
      let (c, r) := collectJson rest
      (l ++ '\n' :: c, r)

/-- The metadata fields collected from `> **Key**: value` lines. -/
structure MetaData where
  name : Option String := none
  timestamp : Option String := none
  id : Option String := none
  description : Option String := none
  complexity : Option String := none
  deriving DecidableEq, Repr

/-- The parser's accumulated state. -/
structure ParseAcc where
  meta : MetaData := {}
  steps : List Json := []
  requiredInputs : List RawInput := []
  successCriteria : List SuccessCriterion := []
  currentSection : Option String := none
  deriving Repr

/-- Record one metadata key/value pair (lines 36–45 of `SOPParser.ts`);
the `ID` value has all backticks removed. -/
def applyMeta (m : MetaData) (key value : String) : MetaData :=
  if key = "Generated" then { m with timestamp := some value }
  else if key = "ID" then
    { m with id := some (String.mk (value.data.filter (· ≠ Char.ofNat 96))) }
  else if key = "Description" then { m with description := some value }
  else if key = "Complexity" then { m with complexity := some value }
  else m

/-- The main line loop of `fromMarkdown` (lines 26–111 of `SOPParser.ts`)
over the lines after the title line.  `fuel` bounds the recursion (each
iteration consumes at least the current line, so the line count suffices).
A `### Step N: …` heading matches the source's `stepMatch` only to be
skipped, which coincides with the default behaviour of falling through the
branch — heading text never reaches the result. -/
def parseLoop : Nat → ParseAcc → List (List Char) → ParseAcc
  | 0, acc, _ => acc
  | _, acc, [] => acc
  | fuel + 1, acc, l :: rest =>
    let t := trimChars l
    if t = [] then parseLoop fuel acc rest
    else if ">".data.isPrefixOf t then
      let acc :=
        match searchMeta t with
        | some (key, value) => { acc with meta := applyMeta acc.meta key value }
        | none => acc
      parseLoop fuel acc rest
    else if "## ".data.isPrefixOf t then
      parseLoop fuel
        { acc with currentSection := some (String.mk (trimChars (t.drop 3))) } rest
    else
      match acc.currentSection with
      | some "Success Criteria" =>
        (match matchCriterion t with
         | some description =>
           let vline := trimChars ((rest.headD []))
           let validation := (searchValidation vline).getD ""
           parseLoop fuel
             { acc with successCriteria :=
                 acc.successCriteria ++ [{ description := description, validation := validation }] }
             (rest.drop 1)
         | none => parseLoop fuel acc rest)
      | some "Required Inputs" =>
        if "|".data.isPrefixOf t ∧ containsSeq "---".data t = false then
          match parseInputRow t with
          | some row =>
            parseLoop fuel { acc with requiredInputs := acc.requiredInputs ++ [row] } rest
          | none => parseLoop fuel acc rest
        else parseLoop fuel acc rest
      | some "Workflow Steps" =>
        if t = "```json".data then
          let (content, rest2) := collectJson rest
          let acc :=
            match parseJson (String.mk content) with
            | some stepData => { acc with steps := acc.steps ++ [stepData] }
            | none => acc
          parseLoop fuel acc rest2
        else parseLoop fuel acc rest
      | _ => parseLoop fuel acc rest

/-! ### The zod validation (`SOPWorkflowSchema.parse`) of the assembled
workflow object.  The step entries are raw parsed JSON objects; everything
else is already well-typed by construction, so the checks that can fail are
the string-format checks (`uuid`, `datetime`, the enum literals) and the
per-step decoding. -/

/-- Hex digit. -/
def isHexDigit (c : Char) : Bool :=
  c.isDigit || ('a' ≤ c ∧ c ≤ 'f') || ('A' ≤ c ∧ c ≤ 'F')

/-- `z.string().uuid()` (modelled as the 8-4-4-4-12 hex/dash shape). -/
def isUuid (s : String) : Bool :=
  let l := s.data
  l.length = 36 &&
    l.enum.all fun p =>
      if p.1 = 8 ∨ p.1 = 13 ∨ p.1 = 18 ∨ p.1 = 23 then p.2 = '-' else isHexDigit p.2

/-- `z.string().datetime()`: `YYYY-MM-DDTHH:MM:SS(.d+)?Z`. -/
def isDatetime (s : String) : Bool :=
  let l := s.data
  let digits (n : Nat) (cs : List Char) : Option (List Char) :=
    if (cs.take n).length = n ∧ (cs.take n).all Char.isDigit then some (cs.drop n) else none
  let step (sep : Char) (cs : List Char) : Option (List Char) :=
    match cs with
    | c :: r => if c = sep then some r else none
    | [] => none
  let checked : Option Unit := do
    let r ← digits 4 l
    let r ← step '-' r
    let r ← digits 2 r
    let r ← step '-' r
    let r ← digits 2 r
    let r ← step 'T' r
    let r ← digits 2 r
    let r ← step ':' r
    let r ← digits 2 r
    let r ← step ':' r
    let r ← digits 2 r
    let r ←
      match r with
      | '.' :: fr =>
        let ds := fr.takeWhile Char.isDigit
        if ds = [] then none else some (fr.drop ds.length)
      | _ => some r
    match r with
    | ['Z'] => some ()
    | _ => none
  checked.isSome

/-- The zod enum decoder for `action`. -/
def parseAction (s : String) : Option ActionKind :=
  if s = "navigate" then some .navigate
  else if s = "click" then some .click
  else if s = "input" then some .input
  else if s = "select" then some .select
  else if s = "wait" then some .wait
  else if s = "verify" then some .verify
  else if s = "screenshot" then some .screenshot
  else if s = "extract" then some .extract
  else if s = "conditional" then some .conditional
  else if s = "loop" then some .loop
  else none

/-- The zod enum decoder for `data.source`. -/
def parseDataSource (s : String) : Option DataSource :=
  if s = "user" then some .user
  else if s = "faker" then some .faker
  else if s = "state" then some .state
  else if s = "constant" then some .constant
  else none

/-- The zod enum decoder for `validation.type`. -/
def parseValidationType (s : String) : Option ValidationType :=
  if s = "exists" then some .exists
  else if s = "visible" then some .visible
  else if s = "text" then some .text
  else if s = "value" then some .value
  else if s = "count" then some .count
  else if s = "custom" then some .custom
  else none

/-- The zod enum decoder for `errorHandling.strategy`. -/
def parseStrategy (s : String) : Option ErrorStrategy :=
  if s = "retry" then some .retry
  else if s = "skip" then some .skip
  else if s = "abort" then some .abort
  else if s = "fallback" then some .fallback
  else none

/-- The zod enum decoder for `complexity`. -/
def parseComplexity (s : String) : Option Complexity :=
  if s = "simple" then some .simple
  else if s = "medium" then some .medium
  else if s = "complex" then some .complex
  else none

/-- Decode an optional string member of a raw object. -/
def decodeOptStr (f : JsonFields) (k : String) : Option (Option String) :=
  match f.lookupLast k with
  | none => some none
  | some (.str s) => some (some s)
  | some _ => none

/-- Decode an optional number member of a raw object. -/
def decodeOptNum (f : JsonFields) (k : String) : Option (Option Int) :=
  match f.lookupLast k with
  | none => some none
  | some (.num n) => some (some n)
  | some _ => none

/-- `SOPStepSchema.target` on a raw value. -/
def decodeTarget (j : Json) : Option StepTarget :=
  match j with
  | .obj f => do
    let selector ← decodeOptStr f "selector"
    let url ← decodeOptStr f "url"
    let value ← decodeOptStr f "value"
    return { selector := selector, url := url, value := value }
  | _ => none

/-- `SOPStepSchema.data` on a raw value. -/
def decodeData (j : Json) : Option StepData :=
  match j with
  | .obj f => do
    let sourceStr ←
      match f.lookupLast "source" with
      | some (.str s) => some s
      | _ => none
    let source ← parseDataSource sourceStr
    let field ← decodeOptStr f "field"
    let fakerMethod ← decodeOptStr f "fakerMethod"
    return { source := source, field := field, fakerMethod := fakerMethod
             value := f.lookupLast "value" }
  | _ => none

/-- `SOPStepSchema.validation` on a raw value. -/
def decodeValidation (j : Json) : Option StepValidation :=
  match j with
  | .obj f => do
    let typeStr ←
      match f.lookupLast "type" with
      | some (.str s) => some s
      | _ => none
    let vtype ← parseValidationType typeStr
    let timeout ← decodeOptNum f "timeout"
    return { type := vtype, expected := f.lookupLast "expected", timeout := timeout }
  | _ => none

/-- `SOPStepSchema.errorHandling` on a raw value. -/
def decodeErrorHandling (j : Json) : Option ErrorHandling :=
  match j with
  | .obj f => do
    let strategyStr ←
      match f.lookupLast "strategy" with
      | some (.str s) => some s
      | _ => none
    let strategy ← parseStrategy strategyStr
    let maxRetries ← decodeOptNum f "maxRetries"
    let fallbackStepNumber ← decodeOptNum f "fallbackStepNumber"
    return { strategy := strategy, maxRetries := maxRetries
             fallbackStepNumber := fallbackStepNumber }
  | _ => none

/-- Decode an optional object member through a sub-decoder. -/
def decodeOptWith (f : JsonFields) (k : String) (dec : Json → Option α) :
    Option (Option α) :=
  match f.lookupLast k with
  | none => some none
  | some j =>
    match dec j with
    | some v => some (some v)
    | none => none

/-- `SOPStepSchema.parse` on a raw step object.  `description` is
`z.string()` — required — so a block without it fails to decode. -/
def decodeStep (j : Json) : Option SOPStep :=
  match j with
  | .obj f => do
    let stepNumber ←
      match f.lookupLast "stepNumber" with
      | some (.num n) => some n
      | _ => none
    let actionStr ←
      match f.lookupLast "action" with
      | some (.str s) => some s
      | _ => none
    let action ← parseAction actionStr
    let description ←
      match f.lookupLast "description" with
      | some (.str s) => some s
      | _ => none
    let target ← decodeOptWith f "target" decodeTarget
    let data ← decodeOptWith f "data" decodeData
    let validation ← decodeOptWith f "validation" decodeValidation
    let errorHandling ← decodeOptWith f "errorHandling" decodeErrorHandling
    return { stepNumber := stepNumber, action := action, description := description
             target := target, data := data, validation := validation
             errorHandling := errorHandling }
  | _ => none

/-- The workflow object as `fromMarkdown` assembles it before zod
validation (lines 114–143 of `SOPParser.ts`); `steps` are still raw JSON
objects. -/
structure WorkflowCandidate where
  id : String
  name : String
  description : String
  metadataIds : List String
  timestamp : String
  steps : List Json
  requiredInputs : List RequiredInput
  successCriteria : List SuccessCriterion
  estimatedDuration : Int
  complexity : String
  tags : List String
  critique : CritiqueResult
  deriving Repr

/-- The sort key of `steps.sort((a, b) => a.stepNumber - b.stepNumber)` on
raw step objects (a missing `stepNumber` would make the JS comparator
return `NaN`; the emitted blocks always carry the key, modelled as key
`0`). -/
def rawStepNumber (j : Json) : Int :=
  match j with
  | .obj f =>
    match f.lookupLast "stepNumber" with
    | some (.num n) => n
    | _ => 0
  | _ => 0

/-- JS `metadata.x || fallback` (empty string and `undefined` are falsy). -/
def orElseStr (v : Option String) (fallback : String) : String :=
  match v with
  | some s => if s = "" then fallback else s
  | none => fallback

/-- Assemble the workflow candidate (lines 114–143); `now` models
`new Date().toISOString()` and `freshId` models `crypto.randomUUID()`. -/
def assembleWorkflow (now freshId : String) (titleName : Option String)
    (acc : ParseAcc) : WorkflowCandidate :=
  { id := orElseStr acc.meta.id freshId
    name := orElseStr titleName "Untitled Workflow"
    description := orElseStr acc.meta.description ""
    metadataIds := []
    timestamp := orElseStr acc.meta.timestamp now
    steps := List.insertionSort (fun a b => rawStepNumber a ≤ rawStepNumber b) acc.steps
    requiredInputs :=
      acc.requiredInputs.map fun r =>
        { field := r.field, type := r.type, required := r.required
          defaultValue := r.defaultValue.map .str }
    successCriteria := acc.successCriteria
    estimatedDuration := 0
    complexity := orElseStr acc.meta.complexity "medium"
    tags := []
    critique :=
      { phaseId := .orchestrate
        timestamp := now
        confidence :=
          { overall := 1
            dimensions := { completeness := 1, accuracy := 1, feasibility := 1, coverage := 1 }
            reasoning := "Parsed from markdown"
            humanReviewRequired := false }
        issues := []
        autoCorrections := [] } }

/-- Decode every element of a list, failing when one fails. -/
def decodeSteps : List Json → Option (List SOPStep)
  | [] => some []
  | j :: rest => do
    let s ← decodeStep j
    let tl ← decodeSteps rest
    return s :: tl

/-- `SOPWorkflowSchema.parse` on the assembled candidate: the `uuid` /
`datetime` string formats, the `complexity` enum, the raw step objects, and
the (constructed, always-in-range) critique. -/
def zodParseWorkflow (c : WorkflowCandidate) : Option SOPWorkflow := do
  if isUuid c.id ∧ isDatetime c.timestamp ∧ isDatetime c.critique.timestamp then
    let complexity ← parseComplexity c.complexity
    let steps ← decodeSteps c.steps
    return { id := c.id, name := c.name, description := c.description
             metadataIds := c.metadataIds, timestamp := c.timestamp
             steps := steps, requiredInputs := c.requiredInputs
             successCriteria := c.successCriteria
             estimatedDuration := c.estimatedDuration
             complexity := complexity, tags := c.tags, critique := c.critique }
  else none

/-- The collected parse of a document: title plus line loop. -/
def parseDocument (markdown : String) : Option String × ParseAcc :=
  let lines := splitLines markdown.data
  let titleName := (lines.headD []) |> matchTitle
  let acc := parseLoop lines.length {} (lines.drop 1)
  (titleName, acc)

/-- `SOPParser.fromMarkdown(markdown)`: parse, assemble, zod-validate;
a zod failure is rethrown as `Invalid workflow structure: …`. -/
def fromMarkdown (now freshId : String) (markdown : String) :
    Except String SOPWorkflow :=
  let (titleName, acc) := parseDocument markdown
  let candidate := assembleWorkflow now freshId titleName acc
  match zodParseWorkflow candidate with
  | some w => .ok w
  | none => .error "Invalid workflow structure"

/-! ## Concrete sample data used by the verification -/

/-- A well-formed critique value (confidence in range, valid timestamp)
used to populate the mandatory `critique` member of sample workflows. -/
def sampleCritique : CritiqueResult :=
  { phaseId := .orchestrate
    timestamp := "2024-01-01T00:00:00Z"
    confidence :=
      { overall := 1
        dimensions := { completeness := 1, accuracy := 1, feasibility := 1, coverage := 1 }
        reasoning := "sample"
        humanReviewRequired := false }
    issues := []
    autoCorrections := [] }

/-- A schema-conforming one-step workflow (the round-trip demo input). -/
def roundtripDemo : SOPWorkflow :=
  { id := "123e4567-e89b-12d3-a456-426614174000"
    name := "Login"
    description := "d"
    metadataIds := []
    timestamp := "2024-01-01T00:00:00Z"
    steps := [{ stepNumber := 1, action := .navigate, description := "Open" }]
    requiredInputs := []
    successCriteria := []
    estimatedDuration := 0
    complexity := .simple
    tags := []
    critique := sampleCritique }

/-- The raw JSON object the formatter emits for `roundtripDemo`'s single
step: `stepNumber` and `action` only — no `description`. -/
def roundtripDemoRawStep : Json :=
  .obj (.cons "stepNumber" (.num 1) (.cons "action" (.str "navigate") .nil))

/-- A step with the `fallback` error-handling policy. -/
def fallbackDemoStep1 : SOPStep :=
  { stepNumber := 1, action := .click, description := "open menu"
    errorHandling := some { strategy := .fallback, fallbackStepNumber := some 3 } }

/-- The step after the fallback step. -/
def fallbackDemoStep2 : SOPStep :=
  { stepNumber := 2, action := .click, description := "pick item" }

/-- An attempt oracle under which the first step always fails and every
other step succeeds. -/
def fallbackDemoAttempts : Nat → Nat → AttemptResult :=
  fun i _ =>
    if i = 0 then { success := false, error := some "fail" } else { success := true }

/-- A trivial workflow for the run-level exception demo. -/
def exceptionDemoWorkflow : SOPWorkflow :=
  { roundtripDemo with name := "Demo", id := "123e4567-e89b-12d3-a456-426614174001" }

/-- The escalation engine's default configuration switched to `manual`
mode (`new CognitiveQuadrantManager({ mode: "manual" })`). -/
def manualDemoQuadrant : CognitiveQuadrant :=
  { defaultQuadrant with mode := .manual }

/-- A critique with overall confidence `0.95` and no issues. -/
def critique95 : CritiqueResult :=
  { phaseId := .execute
    timestamp := "2024-01-01T00:00:00Z"
    confidence :=
      { overall := 19/20
        dimensions := { completeness := 1, accuracy := 1, feasibility := 1, coverage := 1 }
        reasoning := "strong"
        humanReviewRequired := false }
    issues := []
    autoCorrections := [] }

/-- The same critique with a single `low`-severity issue. -/
def critique95low : CritiqueResult :=
  { critique95 with issues := [{ severity := .low, description := "minor nit" }] }

/-- A workflow whose step numbering is `[1, 2, 4]`. -/
def gapDemoWorkflow : SOPWorkflow :=
  { roundtripDemo with
      name := "Gapped"
      steps :=
        [{ stepNumber := 1, action := .navigate, description := "a" },
         { stepNumber := 2, action := .click, description := "b" },
         { stepNumber := 4, action := .verify, description := "c" }] }

/-- A workflow whose step numbering is `[0, 1, 2]` (non-contiguous with
respect to the expected `1, 2, 3`, yet starting below 1). -/
def gapZeroDemoWorkflow : SOPWorkflow :=
  { roundtripDemo with
      name := "ZeroStart"
      steps :=
        [{ stepNumber := 0, action := .navigate, description := "a" },
         { stepNumber := 1, action := .click, description := "b" },
         { stepNumber := 2, action := .verify, description := "c" }] }

/-- A workflow whose step numbering is `[1, 1, 2]` (a duplicated
position). -/
def gapDupDemoWorkflow : SOPWorkflow :=
  { roundtripDemo with
      name := "Duplicated"
      steps :=
        [{ stepNumber := 1, action := .navigate, description := "a" },
         { stepNumber := 1, action := .click, description := "b" },
         { stepNumber := 2, action := .verify, description := "c" }] }

/-- A retry-policy step demo: fails once, succeeds on the first retry. -/
def retryDemoStep : SOPStep :=
  { stepNumber := 1, action := .click, description := "submit"
    errorHandling := some { strategy := .retry, maxRetries := some 2 } }

/-- Attempt oracle for the retry demo: step 0 fails its initial attempt
(with error text and a screenshot) and succeeds from attempt 1 on; all
other steps succeed. -/
def retryDemoAttempts : Nat → Nat → AttemptResult :=
  fun i k =>
    if i = 0 ∧ k = 0 then
      { success := false, error := some "boom", screenshot := some "shot1" }
    else { success := true, output := some (.str "done") }

/-! ## Supporting lemmas -/

theorem allSuccess_iff (rs : List StepRecord) :
    allSuccess rs = true ↔ ∀ r ∈ rs, r.status = .success := by
  simp [allSuccess]

theorem anyFailure_iff (rs : List StepRecord) :
    anyFailure rs = true ↔ ∃ r ∈ rs, r.status = .failure := by
  simp [anyFailure]

theorem deriveStatus_spec (rs : List StepRecord) :
    (deriveStatus rs = .success ↔ ∀ r ∈ rs, r.status = .success) ∧
    (deriveStatus rs = .failure ↔ ∃ r ∈ rs, r.status = .failure) ∧
    (deriveStatus rs = .mixed ↔
      (¬ ∀ r ∈ rs, r.status = .success) ∧ ¬ ∃ r ∈ rs, r.status = .failure) := by
  by_cases h1 : allSuccess rs = true
  · have hforall := (allSuccess_iff rs).mp h1
    have hnofail : ¬ ∃ r ∈ rs, r.status = .failure := by
      rintro ⟨r, hr, hst⟩
      have := hforall r hr
      rw [this] at hst
      exact StepStatus.noConfusion hst
    refine ⟨?_, ?_, ?_⟩
    · exact iff_of_true (by simp [deriveStatus, h1]) hforall
    · exact iff_of_false (by simp [deriveStatus, h1]) hnofail
    · exact iff_of_false (by simp [deriveStatus, h1]) (fun h => h.1 hforall)
  · have hnall : ¬ ∀ r ∈ rs, r.status = .success := fun h => h1 ((allSuccess_iff rs).mpr h)
    by_cases h2 : anyFailure rs = true
    · have hfail := (anyFailure_iff rs).mp h2
      refine ⟨?_, ?_, ?_⟩
      · exact iff_of_false (by simp [deriveStatus, h1, h2]) hnall
      · exact iff_of_true (by simp [deriveStatus, h1, h2]) hfail
      · exact iff_of_false (by simp [deriveStatus, h1, h2]) (fun h => h.2 hfail)
    · have hnofail : ¬ ∃ r ∈ rs, r.status = .failure :=
        fun h => h2 ((anyFailure_iff rs).mpr h)
      refine ⟨?_, ?_, ?_⟩
      · exact iff_of_false (by simp [deriveStatus, h1, h2]) hnall
      · exact iff_of_false (by simp [deriveStatus, h1, h2]) hnofail
      · exact iff_of_true (by simp [deriveStatus, h1, h2]) ⟨hnall, hnofail⟩

theorem retryLoop_eq_none_iff (attempt : Nat → AttemptResult) :
    ∀ (count k : Nat),
      retryLoop attempt k count = none ↔
        ∀ j, k ≤ j → j < k + count → (attempt j).success = false := by
  intro count
  induction count with
  | zero => intro k; simp [retryLoop]; intro j h1 h2; omega
  | succ m ih =>
    intro k
    by_cases hs : (attempt k).success
    · simp only [retryLoop, hs, if_pos]
      constructor
      · intro h; exact absurd h (by simp)
      · intro h
        have := h k (le_refl k) (by omega)
        rw [hs] at this
        exact absurd this (by simp)
    · simp only [retryLoop, hs, if_neg, Bool.false_eq_true, not_false_eq_true, if_false]
      rw [ih (k + 1)]
      constructor
      · intro h j h1 h2
        rcases Nat.eq_or_lt_of_le h1 with rfl | hlt
        · exact Bool.eq_false_iff.mpr hs
        · exact h j hlt (by omega)
      · intro h j h1 h2
        exact h j (by omega) (by omega)

theorem retryLoop_some_success (attempt : Nat → AttemptResult) :
    ∀ (count k : Nat) (r : AttemptResult),
      retryLoop attempt k count = some r → r.success = true := by
  intro count
  induction count with
  | zero => intro k r h; exact absurd h (by simp [retryLoop])
  | succ m ih =>
    intro k r h
    by_cases hs : (attempt k).success
    · simp only [retryLoop, hs, if_pos, Option.some.injEq] at h
      rw [← h]
      exact hs
    · simp only [retryLoop, hs, Bool.false_eq_true, not_false_eq_true, if_neg] at h
      exact ih (k + 1) r h

theorem outOfRange01_eq_false {q : ℚ} (h0 : 0 ≤ q) (h1 : q ≤ 1) :
    outOfRange01 q = false := by
  simp only [outOfRange01, decide_eq_false (not_lt.mpr h0), decide_eq_false (not_lt.mpr h1),
    Bool.or_false]

theorem outOfRange01_false_iff (q : ℚ) :
    outOfRange01 q = false ↔ 0 ≤ q ∧ q ≤ 1 := by
  simp [outOfRange01, not_lt, and_comm]

theorem calculate_ok (d : Dimensions) (reasoning : String) (th : ℚ)
    (h0 : 0 ≤ d.completeness) (h1 : d.completeness ≤ 1)
    (h2 : 0 ≤ d.accuracy) (h3 : d.accuracy ≤ 1)
    (h4 : 0 ≤ d.feasibility) (h5 : d.feasibility ≤ 1)
    (h6 : 0 ≤ d.coverage) (h7 : d.coverage ≤ 1) :
    calculate d reasoning th =
      .ok { overall := round3 (weightedOverall d)
            dimensions := d
            reasoning := reasoning
            humanReviewRequired :=
              decide (weightedOverall d < th) || decide (d.accuracy < 1/2) ||
                decide (d.feasibility < 1/2) } := by
  simp only [calculate, outOfRange01_eq_false h0 h1, outOfRange01_eq_false h2 h3,
    outOfRange01_eq_false h4 h5, outOfRange01_eq_false h6 h7, Bool.false_eq_true, if_false]

theorem round3_of_floor {q : ℚ} {z : ℤ} (h : ⌊q * 1000 + 1/2⌋ = z) :
    round3 q = (z : ℚ) / 1000 := by
  rw [round3, h]

/-! ## Claim theorems -/

/-- C1: for every executed workflow (a run whose browser initialisation
does not raise — the exception path is the subject of C5), the overall
status of the `ExecutionResult` is `success` iff every recorded outcome has
status `success`, `failure` iff at least one recorded outcome has status
`failure`, and `partial` (`ExecStatus.mixed`) otherwise. -/
theorem overall_status_iff (now : String) (wf : SOPWorkflow)
    (attempts : Nat → Nat → AttemptResult) :
    ((executeWorkflowModel now wf (.ok ()) attempts).status = .success ↔
      ∀ r ∈ (executeWorkflowModel now wf (.ok ()) attempts).stepResults,
        r.status = .success) ∧
    ((executeWorkflowModel now wf (.ok ()) attempts).status = .failure ↔
      ∃ r ∈ (executeWorkflowModel now wf (.ok ()) attempts).stepResults,
        r.status = .failure) ∧
    ((executeWorkflowModel now wf (.ok ()) attempts).status = .mixed ↔
      ((¬ ∀ r ∈ (executeWorkflowModel now wf (.ok ()) attempts).stepResults,
          r.status = .success) ∧
       ¬ ∃ r ∈ (executeWorkflowModel now wf (.ok ()) attempts).stepResults,
          r.status = .failure)) := by
  have h := deriveStatus_spec (runSteps attempts wf.steps)
  simpa [executeWorkflowModel] using h

/-- C3: a failing step with policy `retry` and bound `N`: if some
re-attempt among `1 … N` succeeds, the recorded outcome is converted to
`success` (with the successful attempt's output) and the remaining steps
run; if all `N` re-attempts fail, the run stops after this step's record,
exactly as it would under the `abort` policy. -/
theorem retry_policy_spec (s : SOPStep) (rest : List SOPStep)
    (attempts : Nat → Nat → AttemptResult) (eh : ErrorHandling) (n : Nat)
    (hpol : s.errorHandling = some eh) (hstrat : eh.strategy = .retry)
    (hbound : eh.maxRetries = some (n : Int))
    (hfail : (attempts 0 0).success = false) :
    ((∃ k, 1 ≤ k ∧ k ≤ n ∧ (attempts 0 k).success = true) →
      ∃ r, firstRetrySuccess (attempts 0) n = some r ∧ r.success = true ∧
        runSteps attempts (s :: rest) =
          { initialRecord s (attempts 0 0) with status := .success, output := r.output } ::
            runSteps (shiftAttempts attempts) rest) ∧
    ((∀ k, 1 ≤ k → k ≤ n → (attempts 0 k).success = false) →
      runSteps attempts (s :: rest) = [initialRecord s (attempts 0 0)] ∧
      runSteps attempts (s :: rest) =
        runSteps attempts ({ s with errorHandling := some { strategy := .abort } } :: rest)) := by
  have hmax : effectiveMaxRetries eh = n := by
    simp [effectiveMaxRetries, hbound]
  constructor
  · rintro ⟨k, hk1, hk2, hks⟩
    have hnotnone : firstRetrySuccess (attempts 0) n ≠ none := by
      intro hnone
      rw [firstRetrySuccess, retryLoop_eq_none_iff] at hnone
      have := hnone k hk1 (by omega)
      rw [hks] at this
      exact absurd this (by simp)
    rcases hr : firstRetrySuccess (attempts 0) n with _ | r
    · exact absurd hr hnotnone
    · refine ⟨r, rfl, retryLoop_some_success (attempts 0) n 1 r hr, ?_⟩
      simp only [runSteps, hfail, Bool.false_eq_true, if_false, hpol, hstrat, hmax, hr]
  · intro hallfail
    have hnone : firstRetrySuccess (attempts 0) n = none := by
      rw [firstRetrySuccess, retryLoop_eq_none_iff]
      intro j h1 h2
      exact hallfail j h1 (by omega)
    constructor
    · simp only [runSteps, hfail, Bool.false_eq_true, if_false, hpol, hstrat, hmax, hnone]
    · simp only [runSteps, hfail, Bool.false_eq_true, if_false, hpol, hstrat, hmax, hnone]
      rfl

/-- C3 witness: a concrete retry step (bound 2, fails initially, succeeds
on the first re-attempt) exercising both branches of `retry_policy_spec`;
the all-fail branch is exercised with an always-failing oracle. -/
theorem retry_policy_spec_witness :
    ((retryDemoStep.errorHandling = some { strategy := .retry, maxRetries := some 2 }) ∧
     ({ strategy := .retry, maxRetries := some 2 : ErrorHandling }.strategy = .retry) ∧
     ({ strategy := .retry, maxRetries := some 2 : ErrorHandling }.maxRetries = some ((2 : Nat) : Int)) ∧
     (retryDemoAttempts 0 0).success = false ∧
     (∃ k, 1 ≤ k ∧ k ≤ 2 ∧ (retryDemoAttempts 0 k).success = true)) ∧
    (∃ r, firstRetrySuccess (retryDemoAttempts 0) 2 = some r ∧ r.success = true ∧
      runSteps retryDemoAttempts [retryDemoStep] =
        { initialRecord retryDemoStep (retryDemoAttempts 0 0) with
            status := .success, output := r.output } ::
          runSteps (shiftAttempts retryDemoAttempts) []) := by
  refine ⟨⟨by decide, by decide, by decide, by decide, ⟨1, by decide, by decide, by decide⟩⟩, ?_⟩
  exact (retry_policy_spec retryDemoStep [] retryDemoAttempts
    { strategy := .retry, maxRetries := some 2 } 2 (by decide) (by decide) (by decide)
    (by decide)).1 ⟨1, by decide, by decide, by decide⟩

/-- C10: when a retry converts a step's recorded outcome to `success`, only
the `status` and `output` members are updated; the `error` text and the
`screenshot` reference recorded from the initial failed attempt stay on the
outcome — so a `success` outcome can still carry error text. -/
theorem retry_success_keeps_error (s : SOPStep) (rest : List SOPStep)
    (attempts : Nat → Nat → AttemptResult) (eh : ErrorHandling) (r : AttemptResult)
    (hpol : s.errorHandling = some eh) (hstrat : eh.strategy = .retry)
    (hfail : (attempts 0 0).success = false)
    (hsome : firstRetrySuccess (attempts 0) (effectiveMaxRetries eh) = some r) :
    runSteps attempts (s :: rest) =
      { stepNumber := s.stepNumber
        status := .success
        output := r.output
        error := (attempts 0 0).error
        screenshot := (attempts 0 0).screenshot } ::
        runSteps (shiftAttempts attempts) rest := by
  simp only [runSteps, hfail, Bool.false_eq_true, if_false, hpol, hstrat, hsome]
  simp [initialRecord, hfail]

/-- C10 witness: the concrete retry demo — the first step fails with error
`"boom"` and screenshot `"shot1"`, succeeds on the first re-attempt, and the
recorded outcome has status `success` while still carrying the error text
and the screenshot of the failed attempt. -/
theorem retry_success_keeps_error_witness :
    ((retryDemoStep.errorHandling = some { strategy := .retry, maxRetries := some 2 }) ∧
     ({ strategy := .retry, maxRetries := some 2 : ErrorHandling }.strategy = .retry) ∧
     (retryDemoAttempts 0 0).success = false ∧
     firstRetrySuccess (retryDemoAttempts 0)
         (effectiveMaxRetries { strategy := .retry, maxRetries := some 2 }) =
       some { success := true, output := some (.str "done") }) ∧
    runSteps retryDemoAttempts [retryDemoStep] =
      [{ stepNumber := retryDemoStep.stepNumber
         status := .success
         output := (some (.str "done") : Option Json)
         error := (retryDemoAttempts 0 0).error
         screenshot := (retryDemoAttempts 0 0).screenshot }] ∧
    (retryDemoAttempts 0 0).error = some "boom" ∧
    (retryDemoAttempts 0 0).screenshot = some "shot1" := by
  refine ⟨⟨by decide, by decide, by decide, by decide⟩, ?_, by decide, by decide⟩
  exact retry_success_keeps_error retryDemoStep [] retryDemoAttempts
    { strategy := .retry, maxRetries := some 2 } { success := true, output := some (.str "done") }
    (by decide) (by decide) (by decide) (by decide)

/-- C4 counterexample: the claim says a failing `fallback` step halts all
remaining steps exactly as `abort` does; on the code it does not — with the
concrete two-step workflow whose first step (policy `fallback`) always
fails, the second step still executes and is recorded (with `success`),
whereas the same run under `abort` records only the first step. -/
theorem fallback_abort_claim_false :
    (runSteps fallbackDemoAttempts [fallbackDemoStep1, fallbackDemoStep2]).map
        (fun r => (r.stepNumber, r.status)) =
      [(1, .failure), (2, .success)] ∧
    runSteps fallbackDemoAttempts
        [{ fallbackDemoStep1 with errorHandling := some { strategy := .abort } },
         fallbackDemoStep2] =
      [{ stepNumber := 1, status := .failure, error := some "fail" }] ∧
    runSteps fallbackDemoAttempts [fallbackDemoStep1, fallbackDemoStep2] ≠
      runSteps fallbackDemoAttempts
        [{ fallbackDemoStep1 with errorHandling := some { strategy := .abort } },
         fallbackDemoStep2] := by
  refine ⟨by decide, by decide, by decide⟩

/-- C4 amended: a failing step whose policy is `fallback` matches no branch
of the error-handling `if/else if` chain, so its `failure` outcome is
recorded and execution *continues* with the next step — identical to a step
with no error-handling policy at all (and no jump to the fallback target is
performed); it is not equivalent to `abort`. -/
theorem fallback_continues (s : SOPStep) (rest : List SOPStep)
    (attempts : Nat → Nat → AttemptResult) (eh : ErrorHandling)
    (hpol : s.errorHandling = some eh) (hstrat : eh.strategy = .fallback)
    (hfail : (attempts 0 0).success = false) :
    runSteps attempts (s :: rest) =
      initialRecord s (attempts 0 0) :: runSteps (shiftAttempts attempts) rest ∧
    (initialRecord s (attempts 0 0)).status = .failure ∧
    runSteps attempts (s :: rest) =
      runSteps attempts ({ s with errorHandling := none } :: rest) := by
  refine ⟨?_, ?_, ?_⟩
  · simp only [runSteps, hfail, Bool.false_eq_true, if_false, hpol, hstrat]
  · simp [initialRecord, hfail]
  · simp only [runSteps, hfail, Bool.false_eq_true, if_false, hpol, hstrat]
    rfl

/-- C4 witness: `fallback_continues` applied to the concrete fallback demo. -/
theorem fallback_continues_witness :
    ((fallbackDemoStep1.errorHandling =
        some { strategy := .fallback, fallbackStepNumber := some 3 }) ∧
     ({ strategy := .fallback, fallbackStepNumber := some 3 : ErrorHandling }.strategy =
        .fallback) ∧
     (fallbackDemoAttempts 0 0).success = false) ∧
    (runSteps fallbackDemoAttempts [fallbackDemoStep1, fallbackDemoStep2] =
      initialRecord fallbackDemoStep1 (fallbackDemoAttempts 0 0) ::
        runSteps (shiftAttempts fallbackDemoAttempts) [fallbackDemoStep2] ∧
     (initialRecord fallbackDemoStep1 (fallbackDemoAttempts 0 0)).status = .failure ∧
     runSteps fallbackDemoAttempts [fallbackDemoStep1, fallbackDemoStep2] =
       runSteps fallbackDemoAttempts
         [{ fallbackDemoStep1 with errorHandling := none }, fallbackDemoStep2]) := by
  refine ⟨⟨by decide, by decide, by decide⟩, ?_⟩
  exact fallback_continues fallbackDemoStep1 [fallbackDemoStep2] fallbackDemoAttempts
    { strategy := .fallback, fallbackStepNumber := some 3 } (by decide) (by decide) (by decide)

/-- C5 counterexample: the claim says the synthetic result of a run-level
exception carries a *zero-confidence* critique; on the code the
executor-level `catch` fixes `overall` at `0.1`, not `0` — shown on a
concrete exceptional run (the other claimed parts do hold there). -/
theorem run_exception_not_zero_confidence :
    (executeWorkflowModel "2024-01-01T00:00:00Z" exceptionDemoWorkflow
        (.error "boom") fallbackDemoAttempts).status = .failure ∧
    (executeWorkflowModel "2024-01-01T00:00:00Z" exceptionDemoWorkflow
        (.error "boom") fallbackDemoAttempts).critique.issues =
      [{ severity := .critical, description := "Workflow failed: boom" }] ∧
    (executeWorkflowModel "2024-01-01T00:00:00Z" exceptionDemoWorkflow
        (.error "boom") fallbackDemoAttempts).critique.confidence.overall = 1/10 ∧
    ¬ (executeWorkflowModel "2024-01-01T00:00:00Z" exceptionDemoWorkflow
        (.error "boom") fallbackDemoAttempts).critique.confidence.overall = 0 := by
  refine ⟨rfl, by decide, rfl, ?_⟩
  intro h
  simp only [executeWorkflowModel, catchCritique] at h
  norm_num at h

/-- C5 amended: the engine's public entry point is total (it never
propagates an exception); a run-level exception is converted into an
`ExecutionResult` with status `failure` carrying a critical-severity issue
and a *low*-confidence critique — overall `0.1` (dimensions
`0 / 0 / 0.5 / 0`), not zero — with `humanReviewRequired` set. -/
theorem run_exception_synthetic_failure (now msg : String) (wf : SOPWorkflow)
    (attempts : Nat → Nat → AttemptResult) :
    (executeWorkflowModel now wf (.error msg) attempts).status = .failure ∧
    (executeWorkflowModel now wf (.error msg) attempts).stepResults = [] ∧
    (executeWorkflowModel now wf (.error msg) attempts).critique.confidence.overall = 1/10 ∧
    (executeWorkflowModel now wf (.error msg) attempts).critique.confidence.humanReviewRequired
      = true ∧
    (executeWorkflowModel now wf (.error msg) attempts).critique.issues =
      [{ severity := .critical, description := s!"Workflow failed: {msg}" }] ∧
    (executeWorkflowModel now wf (.error msg) attempts).logs = [msg] := by
  refine ⟨rfl, rfl, rfl, rfl, rfl, rfl⟩

/-- C6 counterexample: the claim reads `humanReviewRequired` as a predicate
of the *returned* (rounded) `overall`; at dimensions
`(1, 0.5, 0.5, 0.164)` with threshold `0.6` the unrounded weighted sum is
`0.5996`, so review is required, yet the returned score's `overall` rounds
to exactly `0.6` and none of the claim's three conditions hold on the
returned value. -/
theorem humanReview_rounded_counterexample :
    calculate { completeness := 1, accuracy := 1/2, feasibility := 1/2, coverage := 41/250 }
        "x" (3/5) =
      .ok { overall := 3/5
            dimensions :=
              { completeness := 1, accuracy := 1/2, feasibility := 1/2, coverage := 41/250 }
            reasoning := "x"
            humanReviewRequired := true } ∧
    ¬ ((3:ℚ)/5 < 3/5 ∨ (1:ℚ)/2 < 1/2 ∨ (1:ℚ)/2 < 1/2) := by
  constructor
  · have hok := calculate_ok
      { completeness := 1, accuracy := 1/2, feasibility := 1/2, coverage := 41/250 } "x" (3/5)
      (by norm_num) (by norm_num) (by norm_num) (by norm_num)
      (by norm_num) (by norm_num) (by norm_num) (by norm_num)
    rw [hok]
    have hw : weightedOverall
        { completeness := 1, accuracy := 1/2, feasibility := 1/2, coverage := 41/250 } =
        1499/2500 := by
      norm_num [weightedOverall]
    have hfloor : ⌊(1499:ℚ)/2500 * 1000 + 1/2⌋ = 600 := by
      have : (1499:ℚ)/2500 * 1000 + 1/2 = 6001/10 := by norm_num
      rw [this, Int.floor_eq_iff]; norm_num
    have hlt : (1499:ℚ)/2500 < 3/5 := by norm_num
    have hover : round3 ((1499:ℚ)/2500) = 3/5 := by
      rw [round3_of_floor hfloor]; norm_num
    have hb1 : decide ((1499:ℚ)/2500 < 3/5) = true := decide_eq_true hlt
    simp only [Except.ok.injEq, ConfidenceScore.mk.injEq, hw, hover, hb1, Bool.true_or,
      and_self, and_true, true_and]
  · norm_num

/-- C6 amended: for in-range dimensions the scorer succeeds and
`humanReviewRequired` is true exactly when the *unrounded* weighted overall
is below the caller-supplied threshold, or accuracy < 0.5, or
feasibility < 0.5 (independent of completeness and coverage except through
the weighted sum); the returned `overall` field is the weighted sum rounded
to 3 decimals and may fall on the other side of the threshold. -/
theorem humanReview_unrounded_iff (d : Dimensions) (reasoning : String) (th : ℚ)
    (h : 0 ≤ d.completeness ∧ d.completeness ≤ 1 ∧ 0 ≤ d.accuracy ∧ d.accuracy ≤ 1 ∧
         0 ≤ d.feasibility ∧ d.feasibility ≤ 1 ∧ 0 ≤ d.coverage ∧ d.coverage ≤ 1) :
    ∃ s, calculate d reasoning th = .ok s ∧
      (s.humanReviewRequired = true ↔
        (weightedOverall d < th ∨ d.accuracy < 1/2 ∨ d.feasibility < 1/2)) ∧
      s.overall = round3 (weightedOverall d) ∧ s.dimensions = d := by
  obtain ⟨h0, h1, h2, h3, h4, h5, h6, h7⟩ := h
  refine ⟨_, calculate_ok d reasoning th h0 h1 h2 h3 h4 h5 h6 h7, ?_, rfl, rfl⟩
  simp [Bool.or_eq_true, decide_eq_true_eq, or_assoc]

/-- C6 witness: `humanReview_unrounded_iff` at the all-ones dimensions and
threshold `0.6`. -/
theorem humanReview_unrounded_iff_witness :
    (0 ≤ ({ completeness := 1, accuracy := 1, feasibility := 1, coverage := 1 } :
        Dimensions).completeness ∧
     ({ completeness := 1, accuracy := 1, feasibility := 1, coverage := 1 } :
        Dimensions).completeness ≤ 1 ∧
     0 ≤ ({ completeness := 1, accuracy := 1, feasibility := 1, coverage := 1 } :
        Dimensions).accuracy ∧
     ({ completeness := 1, accuracy := 1, feasibility := 1, coverage := 1 } :
        Dimensions).accuracy ≤ 1 ∧
     0 ≤ ({ completeness := 1, accuracy := 1, feasibility := 1, coverage := 1 } :
        Dimensions).feasibility ∧
     ({ completeness := 1, accuracy := 1, feasibility := 1, coverage := 1 } :
        Dimensions).feasibility ≤ 1 ∧
     0 ≤ ({ completeness := 1, accuracy := 1, feasibility := 1, coverage := 1 } :
        Dimensions).coverage ∧
     ({ completeness := 1, accuracy := 1, feasibility := 1, coverage := 1 } :
        Dimensions).coverage ≤ 1) ∧
    ∃ s, calculate { completeness := 1, accuracy := 1, feasibility := 1, coverage := 1 }
        "w" (3/5) = .ok s ∧
      (s.humanReviewRequired = true ↔
        (weightedOverall { completeness := 1, accuracy := 1, feasibility := 1, coverage := 1 }
            < 3/5 ∨
         ({ completeness := 1, accuracy := 1, feasibility := 1, coverage := 1 } :
            Dimensions).accuracy < 1/2 ∨
         ({ completeness := 1, accuracy := 1, feasibility := 1, coverage := 1 } :
            Dimensions).feasibility < 1/2)) ∧
      s.overall = round3
        (weightedOverall { completeness := 1, accuracy := 1, feasibility := 1, coverage := 1 }) ∧
      s.dimensions = { completeness := 1, accuracy := 1, feasibility := 1, coverage := 1 } := by
  refine ⟨by decide, ?_⟩
  exact humanReview_unrounded_iff
    { completeness := 1, accuracy := 1, feasibility := 1, coverage := 1 } "w" (3/5) (by decide)

theorem outOfRange01_true_not_01 {q : ℚ} (h : outOfRange01 q = true) :
    ¬ (0 ≤ q ∧ q ≤ 1) := by
  rw [← outOfRange01_false_iff]
  simp [h]

theorem calculate_error_iff (d : Dimensions) (reasoning : String) (th : ℚ) :
    (∃ e, calculate d reasoning th = .error e) ↔
      ¬ (0 ≤ d.completeness ∧ d.completeness ≤ 1 ∧ 0 ≤ d.accuracy ∧ d.accuracy ≤ 1 ∧
         0 ≤ d.feasibility ∧ d.feasibility ≤ 1 ∧ 0 ≤ d.coverage ∧ d.coverage ≤ 1) := by
  by_cases hc : outOfRange01 d.completeness = true
  · refine iff_of_true ⟨.outOfRange d.completeness, by simp [calculate, hc]⟩ ?_
    have := outOfRange01_true_not_01 hc
    tauto
  · have hc' : outOfRange01 d.completeness = false := by simpa using hc
    by_cases ha : outOfRange01 d.accuracy = true
    · refine iff_of_true ⟨.outOfRange d.accuracy, by simp [calculate, hc', ha]⟩ ?_
      have := outOfRange01_true_not_01 ha
      tauto
    · have ha' : outOfRange01 d.accuracy = false := by simpa using ha
      by_cases hf : outOfRange01 d.feasibility = true
      · refine iff_of_true ⟨.outOfRange d.feasibility, by simp [calculate, hc', ha', hf]⟩ ?_
        have := outOfRange01_true_not_01 hf
        tauto
      · have hf' : outOfRange01 d.feasibility = false := by simpa using hf
        by_cases hv : outOfRange01 d.coverage = true
        · refine iff_of_true
            ⟨.outOfRange d.coverage, by simp [calculate, hc', ha', hf', hv]⟩ ?_
          have := outOfRange01_true_not_01 hv
          tauto
        · have hv' : outOfRange01 d.coverage = false := by simpa using hv
          have hcr := (outOfRange01_false_iff _).mp hc'
          have har := (outOfRange01_false_iff _).mp ha'
          have hfr := (outOfRange01_false_iff _).mp hf'
          have hvr := (outOfRange01_false_iff _).mp hv'
          refine iff_of_false ?_ (by tauto)
          rintro ⟨e, he⟩
          rw [calculate_ok d reasoning th hcr.1 hcr.2 har.1 har.2 hfr.1 hfr.2
            hvr.1 hvr.2] at he
          exact Except.noConfusion he

/-- C7: the scorer fails with a range error iff some dimension lies outside
`[0, 1]`; for in-range dimensions it returns the fixed-weight sum
`0.30·completeness + 0.30·accuracy + 0.25·feasibility + 0.15·coverage`
rounded to 3 decimals; and at the all-ones dimensions (threshold `0.6`) it
returns `overall = 1` with `humanReviewRequired = false`. -/
theorem calculate_range_and_weights (d : Dimensions) (reasoning : String) (th : ℚ) :
    ((∃ e, calculate d reasoning th = .error e) ↔
      (d.completeness < 0 ∨ 1 < d.completeness ∨ d.accuracy < 0 ∨ 1 < d.accuracy ∨
       d.feasibility < 0 ∨ 1 < d.feasibility ∨ d.coverage < 0 ∨ 1 < d.coverage)) ∧
    ((0 ≤ d.completeness ∧ d.completeness ≤ 1 ∧ 0 ≤ d.accuracy ∧ d.accuracy ≤ 1 ∧
        0 ≤ d.feasibility ∧ d.feasibility ≤ 1 ∧ 0 ≤ d.coverage ∧ d.coverage ≤ 1) →
      ∃ s, calculate d reasoning th = .ok s ∧
        s.overall = round3 (weightedOverall d) ∧ s.dimensions = d) ∧
    calculate { completeness := 1, accuracy := 1, feasibility := 1, coverage := 1 }
        reasoning (3/5) =
      .ok { overall := 1
            dimensions := { completeness := 1, accuracy := 1, feasibility := 1, coverage := 1 }
            reasoning := reasoning
            humanReviewRequired := false } := by
  refine ⟨?_, ?_, ?_⟩
  · rw [calculate_error_iff d reasoning th]
    simp only [not_and_or, not_le]
  · rintro ⟨h0, h1, h2, h3, h4, h5, h6, h7⟩
    exact ⟨_, calculate_ok d reasoning th h0 h1 h2 h3 h4 h5 h6 h7, rfl, rfl⟩
  · have hok := calculate_ok
      { completeness := 1, accuracy := 1, feasibility := 1, coverage := 1 } reasoning (3/5)
      (by norm_num) (by norm_num) (by norm_num) (by norm_num)
      (by norm_num) (by norm_num) (by norm_num) (by norm_num)
    rw [hok]
    have hw : weightedOverall
        { completeness := 1, accuracy := 1, feasibility := 1, coverage := 1 } = 1 := by
      norm_num [weightedOverall]
    have hfloor : ⌊(1:ℚ) * 1000 + 1/2⌋ = 1000 := by
      have : (1:ℚ) * 1000 + 1/2 = 2001/2 := by norm_num
      rw [this, Int.floor_eq_iff]; norm_num
    have hover1 : round3 (1:ℚ) = 1 := by
      rw [round3_of_floor hfloor]; norm_num
    have hb3 : decide ((1:ℚ) < 3/5) = false := decide_eq_false (by norm_num)
    have hb4 : decide ((1:ℚ) < 1/2) = false := decide_eq_false (by norm_num)
    simp only [Except.ok.injEq, ConfidenceScore.mk.injEq, hw, hover1, hb3, hb4,
      Bool.or_self, Bool.or_false, and_self, and_true, true_and]

/-- C7 witness: `calculate_range_and_weights` at the all-ones dimensions
(the in-range branch discharged there). -/
theorem calculate_range_and_weights_witness :
    (0 ≤ ({ completeness := 1, accuracy := 1, feasibility := 1, coverage := 1 } :
        Dimensions).completeness ∧
     ({ completeness := 1, accuracy := 1, feasibility := 1, coverage := 1 } :
        Dimensions).completeness ≤ 1 ∧
     0 ≤ ({ completeness := 1, accuracy := 1, feasibility := 1, coverage := 1 } :
        Dimensions).accuracy ∧
     ({ completeness := 1, accuracy := 1, feasibility := 1, coverage := 1 } :
        Dimensions).accuracy ≤ 1 ∧
     0 ≤ ({ completeness := 1, accuracy := 1, feasibility := 1, coverage := 1 } :
        Dimensions).feasibility ∧
     ({ completeness := 1, accuracy := 1, feasibility := 1, coverage := 1 } :
        Dimensions).feasibility ≤ 1 ∧
     0 ≤ ({ completeness := 1, accuracy := 1, feasibility := 1, coverage := 1 } :
        Dimensions).coverage ∧
     ({ completeness := 1, accuracy := 1, feasibility := 1, coverage := 1 } :
        Dimensions).coverage ≤ 1) ∧
    ∃ s, calculate { completeness := 1, accuracy := 1, feasibility := 1, coverage := 1 }
        "w" (7/10) = .ok s ∧
      s.overall = round3
        (weightedOverall
          { completeness := 1, accuracy := 1, feasibility := 1, coverage := 1 }) ∧
      s.dimensions = { completeness := 1, accuracy := 1, feasibility := 1, coverage := 1 } := by
  refine ⟨by decide, ?_⟩
  exact (calculate_range_and_weights
    { completeness := 1, accuracy := 1, feasibility := 1, coverage := 1 } "w" (7/10)).2.1
    (by decide)

/-- C9: in `manual` mode the engine declines to escalate exactly when the
overall confidence is at least `0.9` and the issue list is empty (for every
threshold configuration); concretely, with the constructor-default
thresholds, a critique with overall `0.95` and zero issues yields
`shouldEscalate = false` and recommended action `approve`, while the same
critique with one `low`-severity issue yields `shouldEscalate = true`. -/
theorem manual_mode_escalation :
    (∀ (th : Thresholds) (ip : List InterventionPoint) (critique : CritiqueResult),
      (shouldEscalateToHuman
          { mode := .manual, thresholds := th, humanInterventionPoints := ip }
          critique).shouldEscalate = false ↔
        (9/10 ≤ critique.confidence.overall ∧ critique.issues = [])) ∧
    ((shouldEscalateToHuman manualDemoQuadrant critique95).shouldEscalate = false ∧
     (getRecommendedAction manualDemoQuadrant critique95).action = .approve) ∧
    (shouldEscalateToHuman manualDemoQuadrant critique95low).shouldEscalate = true := by
  have h910 : (9:ℚ)/10 ≤ 19/20 := by norm_num
  have h45 : (4:ℚ)/5 ≤ 19/20 := by norm_num
  refine ⟨?_, ⟨?_, ?_⟩, ?_⟩
  · intro th ip critique
    by_cases h : (9/10 ≤ critique.confidence.overall ∧ critique.issues = [])
    · simp [shouldEscalateToHuman, h]
    · simp [shouldEscalateToHuman, h]
  · simp [shouldEscalateToHuman, manualDemoQuadrant, defaultQuadrant, critique95, h910]
  · simp [getRecommendedAction, shouldEscalateToHuman, shouldAttemptAutoCorrect,
      manualDemoQuadrant, defaultQuadrant, critique95, h910, h45]
  · simp [shouldEscalateToHuman, manualDemoQuadrant, defaultQuadrant, critique95low,
      critique95]

theorem firstGap_none (l : List Int) : ∀ e : Int,
    firstGap l e = none → l = expectedFrom e l.length := by
  induction l with
  | nil => intro e _; simp [expectedFrom]
  | cons n rest ih =>
    intro e h
    simp only [firstGap] at h
    by_cases hn : n = e
    · subst hn
      rw [if_pos rfl] at h
      rw [List.length_cons, expectedFrom]
      exact congrArg (List.cons n) (ih (n + 1) h)
    · rw [if_neg hn] at h
      exact absurd h (by simp)

theorem firstGap_some (l : List Int) : ∀ (e N M : Int),
    l.Sorted (· < ·) → (∀ x ∈ l, e ≤ x) → firstGap l e = some (N, M) →
    e ≤ N ∧ N < e + l.length ∧ N ∉ l ∧ (∀ j : Int, e ≤ j → j < N → j ∈ l) ∧
      M ∈ l ∧ N < M := by
  induction l with
  | nil =>
    intro e N M _ _ h
    exact absurd h (by simp [firstGap])
  | cons n rest ih =>
    intro e N M hsort hge h
    have hsort' : rest.Sorted (· < ·) := hsort.of_cons
    have hlt : ∀ x ∈ rest, n < x := List.rel_of_sorted_cons hsort
    have hen : e ≤ n := hge n (List.mem_cons_self n rest)
    simp only [firstGap] at h
    by_cases hn : n = e
    · subst hn
      rw [if_pos rfl] at h
      have hge' : ∀ x ∈ rest, n + 1 ≤ x := fun x hx => Int.add_one_le_iff.mpr (hlt x hx)
      obtain ⟨h1, h2, h3, h4, h5, h6⟩ := ih (n + 1) N M hsort' hge' h
      refine ⟨by omega, ?_, ?_, ?_, List.mem_cons_of_mem _ h5, h6⟩
      · simp only [List.length_cons]
        push_cast
        omega
      · intro hmem
        rcases List.mem_cons.mp hmem with heq | hmem'
        · omega
        · exact h3 hmem'
      · intro j hj1 hj2
        rcases eq_or_lt_of_le hj1 with heq | hj
        · rw [← heq]; exact List.mem_cons_self _ _
        · exact List.mem_cons_of_mem _ (h4 j (by omega) hj2)
    · rw [if_neg hn] at h
      simp only [Option.some.injEq, Prod.mk.injEq] at h
      obtain ⟨rfl, rfl⟩ := h
      have hne : e < n := lt_of_le_of_ne hen (fun heq => hn heq.symm)
      refine ⟨le_refl e, ?_, ?_, ?_, List.mem_cons_self n rest, hne⟩
      · simp only [List.length_cons]
        push_cast
        omega
      · intro hmem
        rcases List.mem_cons.mp hmem with heq | hmem'
        · exact hn heq.symm
        · have := hlt e hmem'
          omega
      · intro j hj1 hj2
        omega

theorem stepFieldErrors_no_gap (steps : List SOPStep) :
    (stepFieldErrors steps).filter VError.isGap = [] := by
  rw [List.filter_eq_nil_iff]
  intro e he
  simp only [stepFieldErrors, List.mem_filterMap] at he
  obtain ⟨p, _, hp⟩ := he
  by_cases hd : p.2.description = ""
  · rw [if_pos hd] at hp
    simp only [Option.some.injEq] at hp
    rw [← hp]
    simp [VError.isGap]
  · rw [if_neg hd] at hp
    exact absurd hp (by simp)

/-- C8 counterexample: the claim quantifies over *every* workflow with
non-contiguous step positions, but the reported `expected N` is the
smallest absent expected position only when the positions are pairwise
distinct and at least 1.  With numbering `[0, 1, 2]` the code reports
`expected 1, found 0` although position 1 is present and the smallest
absent expected position is 3; with the duplicated numbering `[1, 1, 2]`
it reports `expected 2, found 1` although position 2 is present and the
smallest absent expected position is again 3. -/
theorem gap_smallest_absent_counterexample :
    ((validate gapZeroDemoWorkflow).errors.filter VError.isGap = [.gap 1 0] ∧
     (1 : Int) ∈ gapZeroDemoWorkflow.steps.map (fun s => s.stepNumber) ∧
     (3 : Int) ∉ gapZeroDemoWorkflow.steps.map (fun s => s.stepNumber) ∧
     gapZeroDemoWorkflow.steps.length = 3 ∧
     sortedStepNumbers gapZeroDemoWorkflow.steps ≠
       expectedFrom 1 gapZeroDemoWorkflow.steps.length) ∧
    ((validate gapDupDemoWorkflow).errors.filter VError.isGap = [.gap 2 1] ∧
     (2 : Int) ∈ gapDupDemoWorkflow.steps.map (fun s => s.stepNumber) ∧
     (3 : Int) ∉ gapDupDemoWorkflow.steps.map (fun s => s.stepNumber) ∧
     gapDupDemoWorkflow.steps.length = 3 ∧
     sortedStepNumbers gapDupDemoWorkflow.steps ≠
       expectedFrom 1 gapDupDemoWorkflow.steps.length) := by
  refine ⟨⟨by decide, by decide, by decide, by decide, by decide⟩,
    ⟨by decide, by decide, by decide, by decide, by decide⟩⟩

/-- C8 amended: for a workflow whose step positions are pairwise distinct, all at
least 1, and not contiguous, `validate` reports exactly one step-numbering
gap, rendered `Step numbering gap: expected N, found M`, where `N` is the
smallest expected position (in `1 … steps.length`) absent from the step
numbers, and `M` is a recorded position greater than `N`; no later gap is
reported. -/
theorem validate_first_gap (w : SOPWorkflow)
    (hnd : (w.steps.map (fun s => s.stepNumber)).Nodup)
    (hpos : ∀ x ∈ w.steps.map (fun s => s.stepNumber), (1:Int) ≤ x)
    (hnc : sortedStepNumbers w.steps ≠ expectedFrom 1 w.steps.length) :
    ∃ N M : Int,
      (validate w).errors.filter VError.isGap = [.gap N M] ∧
      VError.render (.gap N M) = s!"Step numbering gap: expected {N}, found {M}" ∧
      1 ≤ N ∧ N ≤ (w.steps.length : Int) ∧
      N ∉ w.steps.map (fun s => s.stepNumber) ∧
      (∀ j : Int, 1 ≤ j → j < N → j ∈ w.steps.map (fun s => s.stepNumber)) ∧
      M ∈ w.steps.map (fun s => s.stepNumber) ∧ N < M := by
  have hperm : List.Perm (sortedStepNumbers w.steps) (w.steps.map (fun s => s.stepNumber)) :=
    List.perm_insertionSort _ _
  have hsortle : (sortedStepNumbers w.steps).Sorted (· ≤ ·) :=
    List.sorted_insertionSort _ _
  have hndsort : (sortedStepNumbers w.steps).Nodup := hperm.nodup_iff.mpr hnd
  have hsortlt : (sortedStepNumbers w.steps).Sorted (· < ·) := hsortle.lt_of_le hndsort
  have hge1 : ∀ x ∈ sortedStepNumbers w.steps, (1:Int) ≤ x :=
    fun x hx => hpos x (hperm.mem_iff.mp hx)
  have hlen : (sortedStepNumbers w.steps).length = w.steps.length := by
    rw [hperm.length_eq, List.length_map]
  cases hfg : firstGap (sortedStepNumbers w.steps) 1 with
  | none =>
    have := firstGap_none _ 1 hfg
    rw [hlen] at this
    exact absurd this hnc
  | some p =>
    obtain ⟨N, M⟩ := p
    obtain ⟨h1, h2, h3, h4, h5, h6⟩ := firstGap_some _ 1 N M hsortlt hge1 hfg
    rw [hlen] at h2
    refine ⟨N, M, ?_, rfl, h1, by omega, ?_, ?_, hperm.mem_iff.mp h5, h6⟩
    · have hname :
          (if w.name = "" then [VError.missingName] else []).filter VError.isGap = [] := by
        split
        · simp [VError.isGap]
        · simp
      have hempty :
          (if w.steps.isEmpty then [VError.noSteps] else []).filter VError.isGap = [] := by
        split
        · simp [VError.isGap]
        · simp
      simp only [validate, hfg]
      rw [List.filter_append, List.filter_append, List.filter_append, hname, hempty,
        stepFieldErrors_no_gap]
      simp [VError.isGap]
    · intro hmem
      exact h3 (hperm.mem_iff.mpr hmem)
    · intro j hj1 hj2
      exact hperm.mem_iff.mp (h4 j hj1 hj2)

/-- C8 witness: `validate_first_gap` on the `[1, 2, 4]` workflow — the
reported gap is exactly `expected 3, found 4`. -/
theorem validate_first_gap_witness :
    ((gapDemoWorkflow.steps.map (fun s => s.stepNumber)).Nodup ∧
     (∀ x ∈ gapDemoWorkflow.steps.map (fun s => s.stepNumber), (1:Int) ≤ x) ∧
     sortedStepNumbers gapDemoWorkflow.steps ≠
       expectedFrom 1 gapDemoWorkflow.steps.length) ∧
    (∃ N M : Int,
      (validate gapDemoWorkflow).errors.filter VError.isGap = [.gap N M] ∧
      VError.render (.gap N M) = s!"Step numbering gap: expected {N}, found {M}" ∧
      1 ≤ N ∧ N ≤ (gapDemoWorkflow.steps.length : Int) ∧
      N ∉ gapDemoWorkflow.steps.map (fun s => s.stepNumber) ∧
      (∀ j : Int, 1 ≤ j → j < N →
        j ∈ gapDemoWorkflow.steps.map (fun s => s.stepNumber)) ∧
      M ∈ gapDemoWorkflow.steps.map (fun s => s.stepNumber) ∧ N < M) ∧
    (validate gapDemoWorkflow).errors.filter VError.isGap = [.gap 3 4] ∧
    VError.render (.gap 3 4) = "Step numbering gap: expected 3, found 4" := by
  refine ⟨⟨by decide, by decide, by decide⟩, ?_, by decide, by decide⟩
  exact validate_first_gap gapDemoWorkflow (by decide) (by decide) (by decide)

/-- C2 (code bug): the round trip evaluated on a concrete schema-conforming
one-step workflow.  The formatter's fenced machine-readable block for the
step carries only `stepNumber` and `action` — the schema-required
`description` member is missing — so `SOPStepSchema` rejects the
reconstructed step and `fromMarkdown` throws `Invalid workflow structure`
on the formatter's own output instead of returning a Workflow; with a
`description` member added to the raw block, the very same decoder accepts
the step and returns it field-for-field. -/
theorem roundtrip_rejects_own_output :
    (parseDocument (toMarkdown roundtripDemo)).2.steps = [roundtripDemoRawStep] ∧
    JsonFields.lookupLast "description"
        (.cons "stepNumber" (.num 1) (.cons "action" (.str "navigate") .nil)) = none ∧
    decodeStep roundtripDemoRawStep = none ∧
    fromMarkdown "2024-01-01T00:00:00Z" "ffffffff-0000-0000-0000-000000000000"
        (toMarkdown roundtripDemo) = .error "Invalid workflow structure" ∧
    decodeStep (Json.obj (.cons "stepNumber" (.num 1)
        (.cons "action" (.str "navigate") (.cons "description" (.str "Open") .nil)))) =
      some { stepNumber := 1, action := .navigate, description := "Open" } := by
  refine ⟨by decide, by decide, by decide, by decide, by decide⟩

end E2E
